import Mathlib

/-!
# Completion poller and role drivers of `interoperability/lib-nm.c`

A shallow embedding of `progress_fn`, `nm_noop_rpc_cb`, `nm_run_client` and
`nm_run_server`.  The transport (mercury), the thread library and the other
thread's writes to `shutdown_flag` are oracles: every call into them takes its
result from an environment record, and every call is logged as an `Event`.

* `progress_fn` is a step function on a program-counter state (`PState`), one
  location per source line of the loop (lines 33-49);
* the callback and the two drivers are straight-line code and are embedded as
  functions that return the events they performed and how they ended.

`assert` is taken as compiled in (no `NDEBUG`): a failed assertion aborts the
process.  Each function is embedded as the program order of the thread that
runs it; the threads are not interleaved.
-/

namespace LibNm

/-! ## Data model -/

/-- Modelled from the spec: the status type `hg_return_t` of the transport
(declared in mercury.h, which is not part of the sources).  The code only
tells `HG_SUCCESS` and `HG_TIMEOUT` apart from every other status; the other
statuses are kept as `HG_ERROR code`. -/
inductive hg_return_t where
  | HG_SUCCESS
  | HG_TIMEOUT
  | HG_ERROR (code : Nat)
  deriving DecidableEq, Repr

open hg_return_t

/-- The value of the macro `NM_ID` (line 18). -/
def NM_ID : Nat := 1

/-- The initial value of the file-scope variable `shutdown_flag` (line 20). -/
def shutdown_flag_init : Int := 0

/-- The completion callbacks defined in the file. -/
inductive Callback where
  | nm_noop_rpc_cb
  deriving DecidableEq, Repr

/-- The thread start routines defined in the file. -/
inductive StartRoutine where
  | progress_fn
  deriving DecidableEq, Repr

/-- The externally visible actions of the code, in the order of the source.
Pointers (`hg_context_t *`, `hg_class_t *`, `hg_handle_t`) are addresses, `0`
being `NULL`; a `NULL` argument of pointer type is `none`. -/
inductive Event where
  /-- a read of `shutdown_flag` that yielded `v` (lines 33 and 39) -/
  | read_shutdown_flag (v : Int)
  /-- the assignment `shutdown_flag = v` (lines 87 and 116) -/
  | write_shutdown_flag (v : Int)
  /-- the call `HG_Trigger(context, timeout, max_count, &actual_count)` and its results -/
  | HG_Trigger (context timeout max_count : Nat) (ret : hg_return_t) (actual_count : Nat)
  /-- the call `HG_Progress(context, timeout)` and its result -/
  | HG_Progress (context timeout : Nat) (ret : hg_return_t)
  /-- the call `HG_Respond(handle, callback, arg, out_struct)` and its result -/
  | HG_Respond (handle : Nat) (callback arg out_struct : Option Nat) (ret : hg_return_t)
  /-- the call `HG_Destroy(handle)` and its result -/
  | HG_Destroy (handle : Nat) (ret : hg_return_t)
  /-- the call `HG_Context_create_id(class, id)` and the context it returned -/
  | HG_Context_create_id (cls id context : Nat)
  /-- the registration `MERCURY_REGISTER(class, name, void, void, cb)` and the id it returned -/
  | MERCURY_REGISTER (cls : Nat) (name : String) (cb : Option Callback) (id : Nat)
  /-- the call `pthread_create(&tid, NULL, start, &pargs)`, with the context held by `pargs` -/
  | pthread_create (start : StartRoutine) (context tid : Nat) (ret : Int)
  /-- the call `sleep(seconds)` -/
  | sleep (seconds : Nat)
  /-- the call `pthread_join(tid, NULL)` and its result -/
  | pthread_join (tid : Nat) (ret : Int)
  /-- the call `HG_Context_destroy(context)` and its result -/
  | HG_Context_destroy (context : Nat) (ret : hg_return_t)
  /-- a failed `assert`: the process is aborted -/
  | abort
  deriving DecidableEq, Repr

/-- How a function of the file ends: it returns a value, or a failed `assert`
aborts the process. -/
inductive Outcome (α : Type) where
  | returned (v : α)
  | aborted
  deriving DecidableEq, Repr

/-! ## The completion poller `progress_fn` (lines 27-50) -/

/-- The environment of one poller run.  The `k`-th read of `shutdown_flag`
yields `shutdown_flag k`, the `k`-th call of `HG_Trigger` returns
`HG_Trigger k` (status and `actual_count`), the `k`-th call of `HG_Progress`
returns `HG_Progress k`; `k` counts from `0`. -/
structure World where
  shutdown_flag : Nat → Int
  HG_Trigger : Nat → hg_return_t × Nat
  HG_Progress : Nat → hg_return_t

/-- Program locations of `progress_fn`. -/
inductive Loc where
  /-- line 33: `while(!shutdown_flag)` -/
  | loop_head
  /-- line 36: `ret = HG_Trigger(pargs->context, 0, 1, &actual_count);` -/
  | trigger
  /-- line 37: `while((ret == HG_SUCCESS) && actual_count);` -/
  | drain_test
  /-- line 39: `if(!shutdown_flag)` -/
  | skip_test
  /-- line 40: `ret = HG_Progress(pargs->context, 100);` -/
  | progress
  /-- line 42: `if(ret != HG_SUCCESS && ret != HG_TIMEOUT)` -/
  | ret_test
  /-- lines 44-45: `fprintf(stderr, ...); assert(0);` has been executed -/
  | aborted
  /-- line 49: `return(NULL);` has been executed -/
  | returned
  deriving DecidableEq, Repr

/-- The state of a poller run: the location, the locals `pargs->context`,
`ret` and `actual_count`, the number of oracle answers consumed so far and the
events performed so far (oldest first). -/
structure PState where
  loc : Loc
  context : Nat
  ret : hg_return_t
  actual_count : Nat
  reads : Nat
  triggers : Nat
  progresses : Nat
  trace : List Event

/-- One step of `progress_fn`: the statement at the current location. -/
def step (w : World) (s : PState) : PState :=
  match s.loc with
  | Loc.loop_head =>
      let v := w.shutdown_flag s.reads
      { s with
        loc := if v = 0 then Loc.trigger else Loc.returned
        reads := s.reads + 1
        trace := s.trace ++ [Event.read_shutdown_flag v] }
  | Loc.trigger =>
      let r := w.HG_Trigger s.triggers
      { s with
        loc := Loc.drain_test
        ret := r.1
        actual_count := r.2
        triggers := s.triggers + 1
        trace := s.trace ++ [Event.HG_Trigger s.context 0 1 r.1 r.2] }
  | Loc.drain_test =>
      { s with
        loc := if s.ret = HG_SUCCESS ∧ s.actual_count ≠ 0 then Loc.trigger else Loc.skip_test }
  | Loc.skip_test =>
      let v := w.shutdown_flag s.reads
      { s with
        loc := if v = 0 then Loc.progress else Loc.ret_test
        reads := s.reads + 1
        trace := s.trace ++ [Event.read_shutdown_flag v] }
  | Loc.progress =>
      let r := w.HG_Progress s.progresses
      { s with
        loc := Loc.ret_test
        ret := r
        progresses := s.progresses + 1
        trace := s.trace ++ [Event.HG_Progress s.context 100 r] }
  | Loc.ret_test =>
      if s.ret ≠ HG_SUCCESS ∧ s.ret ≠ HG_TIMEOUT then
        { s with loc := Loc.aborted, trace := s.trace ++ [Event.abort] }
      else
        { s with loc := Loc.loop_head }
  | Loc.aborted => s
  | Loc.returned => s

/-- The state `n` steps after `s`. -/
def exec (w : World) : Nat → PState → PState
  | 0, s => s
  | n + 1, s => exec w n (step w s)

/-- The state in which `progress_fn` is entered with `pargs->context = context`.
The locals `ret` and `actual_count` are not initialised by the code: their
initial contents `ret0` and `count0` are arbitrary. -/
def progress_fn_entry (context : Nat) (ret0 : hg_return_t) (count0 : Nat) : PState :=
  { loc := Loc.loop_head, context := context, ret := ret0, actual_count := count0,
    reads := 0, triggers := 0, progresses := 0, trace := [] }

/-- The state of a run of `progress_fn` after `n` steps. -/
def progress_fn (w : World) (context : Nat) (ret0 : hg_return_t) (count0 : Nat) (n : Nat) :
    PState :=
  exec w n (progress_fn_entry context ret0 count0)

/-! ## The responder callback `nm_noop_rpc_cb` (lines 52-64) -/

/-- The results the transport reports to one invocation of the callback. -/
structure CbEnv where
  HG_Respond : hg_return_t
  HG_Destroy : hg_return_t

/-- What a straight-line function did: how it ended and the events it
performed (oldest first). -/
structure Run (α : Type) where
  outcome : Outcome α
  trace : List Event

/-- The callback `nm_noop_rpc_cb(handle)`: respond with no payload, assert
success, destroy the handle, assert success, return `ret`. -/
def nm_noop_rpc_cb (env : CbEnv) (handle : Nat) : Run hg_return_t :=
  let ret := env.HG_Respond
  let t1 := [Event.HG_Respond handle none none none ret]
  if ret ≠ HG_SUCCESS then { outcome := Outcome.aborted, trace := t1 ++ [Event.abort] } else
  let ret := env.HG_Destroy
  let t2 := t1 ++ [Event.HG_Destroy handle ret]
  if ret ≠ HG_SUCCESS then { outcome := Outcome.aborted, trace := t2 ++ [Event.abort] } else
  { outcome := Outcome.returned ret, trace := t2 }

/-! ## The role drivers `nm_run_client` and `nm_run_server` (lines 66-122) -/

/-- The results the transport and the thread library report to one driver
run: the context returned by `HG_Context_create_id` (`0` is `NULL`), the id
returned by the registration, the status and thread id of `pthread_create`,
the status of `pthread_join` and the status of `HG_Context_destroy`. -/
structure DriverEnv where
  HG_Context_create_id : Nat
  MERCURY_REGISTER : Nat
  pthread_create : Int
  tid : Nat
  pthread_join : Int
  HG_Context_destroy : hg_return_t

/-- The driver `nm_run_client`, called with `nm_args->class = cls`. -/
def nm_run_client (env : DriverEnv) (cls : Nat) : Run Unit :=
  let context := env.HG_Context_create_id
  let t1 := [Event.HG_Context_create_id cls NM_ID context]
  if context = 0 then { outcome := Outcome.aborted, trace := t1 ++ [Event.abort] } else
  let nm_noop_id := env.MERCURY_REGISTER
  let t2 := t1 ++ [Event.MERCURY_REGISTER cls "nm_noop" none nm_noop_id]
  let ret := env.pthread_create
  let t3 := t2 ++ [Event.pthread_create StartRoutine.progress_fn context env.tid ret]
  if ret ≠ 0 then { outcome := Outcome.aborted, trace := t3 ++ [Event.abort] } else
  let t4 := t3 ++ [Event.sleep 1]
  let t5 := t4 ++ [Event.write_shutdown_flag 1]
  let t6 := t5 ++ [Event.pthread_join env.tid env.pthread_join]
  let t7 := t6 ++ [Event.HG_Context_destroy context env.HG_Context_destroy]
  { outcome := Outcome.returned (), trace := t7 }

/-- The driver `nm_run_server`, called with `nm_args->class = cls`. -/
def nm_run_server (env : DriverEnv) (cls : Nat) : Run Unit :=
  let context := env.HG_Context_create_id
  let t1 := [Event.HG_Context_create_id cls NM_ID context]
  if context = 0 then { outcome := Outcome.aborted, trace := t1 ++ [Event.abort] } else
  let nm_noop_id := env.MERCURY_REGISTER
  let t2 := t1 ++ [Event.MERCURY_REGISTER cls "nm_noop" (some Callback.nm_noop_rpc_cb) nm_noop_id]
  let ret := env.pthread_create
  let t3 := t2 ++ [Event.pthread_create StartRoutine.progress_fn context env.tid ret]
  if ret ≠ 0 then { outcome := Outcome.aborted, trace := t3 ++ [Event.abort] } else
  let t4 := t3 ++ [Event.sleep 1]
  let t5 := t4 ++ [Event.write_shutdown_flag 1]
  let t6 := t5 ++ [Event.pthread_join env.tid env.pthread_join]
  let t7 := t6 ++ [Event.HG_Context_destroy context env.HG_Context_destroy]
  { outcome := Outcome.returned (), trace := t7 }

/-! ## The value of `shutdown_flag` along a history of events -/

/-- The value of `shutdown_flag` after the events `h`, starting from `v`:
the value of the last write, or `v` when there is none. -/
def flag_after (v : Int) : List Event → Int
  | [] => v
  | Event.write_shutdown_flag x :: h => flag_after x h
  | _ :: h => flag_after v h

/-- The event `e` is performed by some run of one of the four operations of
the file: the poller, the callback or one of the two drivers. -/
def Performed (e : Event) : Prop :=
  (∃ w context ret0 count0 n, e ∈ (progress_fn w context ret0 count0 n).trace) ∨
  (∃ env handle, e ∈ (nm_noop_rpc_cb env handle).trace) ∨
  (∃ env cls, e ∈ (nm_run_client env cls).trace) ∨
  (∃ env cls, e ∈ (nm_run_server env cls).trace)

/-- The event is a write to `shutdown_flag`. -/
def is_write : Event → Bool
  | Event.write_shutdown_flag _ => true
  | _ => false

/-- The number of writes to `shutdown_flag` among the events `h`. -/
def writes (h : List Event) : Nat :=
  (h.filter is_write).length

/-- The event is a procedure registration. -/
def is_register : Event → Bool
  | Event.MERCURY_REGISTER _ _ _ _ => true
  | _ => false

/-- The event is a reply sent with `HG_Respond`. -/
def is_respond : Event → Bool
  | Event.HG_Respond _ _ _ _ _ => true
  | _ => false

/-- The event is a call of `HG_Context_destroy`. -/
def is_context_destroy : Event → Bool
  | Event.HG_Context_destroy _ _ => true
  | _ => false

/-- The function a registered callback stands for. -/
def Callback.invoke : Callback → CbEnv → Nat → Run hg_return_t
  | Callback.nm_noop_rpc_cb => LibNm.nm_noop_rpc_cb

/-! ## Predicates used to state the properties -/

/-- The `k`-th call of `HG_Trigger` delivers a completion: it returns
`HG_SUCCESS` with a non-zero `actual_count`, the condition under which line 37
repeats the call. -/
def Ready (w : World) (k : Nat) : Prop :=
  (w.HG_Trigger k).1 = HG_SUCCESS ∧ (w.HG_Trigger k).2 ≠ 0

instance (w : World) (k : Nat) : Decidable (Ready w k) := by
  unfold Ready; infer_instance

/-- The status `r` passes the test of line 42. -/
def Accepted (r : hg_return_t) : Prop :=
  r = HG_SUCCESS ∨ r = HG_TIMEOUT

instance (r : hg_return_t) : Decidable (Accepted r) := by
  unfold Accepted; infer_instance

/-- The events of the `m` calls of `HG_Trigger` numbered `k`, ..., `k + m - 1`
made on `context` by line 36. -/
def trigger_events (w : World) (context k m : Nat) : List Event :=
  (List.range m).map fun j =>
    Event.HG_Trigger context 0 1 (w.HG_Trigger (k + j)).1 (w.HG_Trigger (k + j)).2

/-- The event is a call of `HG_Trigger`. -/
def is_trigger : Event → Bool
  | Event.HG_Trigger _ _ _ _ _ => true
  | _ => false

/-- The event is a call of `HG_Progress`. -/
def is_progress : Event → Bool
  | Event.HG_Progress _ _ _ => true
  | _ => false

/-- Every call of `HG_Progress` in the history is followed, later in the
history, by a call of `HG_Trigger`. -/
def progress_then_trigger : List Event → Bool
  | [] => true
  | e :: h => (!is_progress e || h.any is_trigger) && progress_then_trigger h

/-- The state is terminal: the poller has returned or the process is
aborted. -/
def Terminal (s : PState) : Prop :=
  s.loc = Loc.returned ∨ s.loc = Loc.aborted

/-! ## Concrete environments -/

/-- A driver environment in which setup succeeds (context `5`, thread `3`)
while `pthread_join` fails with status `22` and `HG_Context_destroy` fails
with status `HG_ERROR 4`. -/
def env_teardown_fails : DriverEnv :=
  { HG_Context_create_id := 5
    MERCURY_REGISTER := 9
    pthread_create := 0
    tid := 3
    pthread_join := 22
    HG_Context_destroy := HG_ERROR 4 }

/-- A driver environment in which every operation succeeds. -/
def env_ok : DriverEnv :=
  { HG_Context_create_id := 5
    MERCURY_REGISTER := 9
    pthread_create := 0
    tid := 3
    pthread_join := 0
    HG_Context_destroy := HG_SUCCESS }

/-- A driver environment in which `HG_Context_create_id` returns `NULL`. -/
def env_no_context : DriverEnv :=
  { HG_Context_create_id := 0
    MERCURY_REGISTER := 9
    pthread_create := 0
    tid := 3
    pthread_join := 0
    HG_Context_destroy := HG_SUCCESS }

/-- A driver environment in which `pthread_create` fails with status `11`. -/
def env_no_thread : DriverEnv :=
  { HG_Context_create_id := 5
    MERCURY_REGISTER := 9
    pthread_create := 11
    tid := 3
    pthread_join := 0
    HG_Context_destroy := HG_SUCCESS }

/-- A callback environment in which both transport calls succeed. -/
def cb_ok : CbEnv :=
  { HG_Respond := HG_SUCCESS, HG_Destroy := HG_SUCCESS }

/-- A callback environment in which `HG_Respond` fails. -/
def cb_respond_fails : CbEnv :=
  { HG_Respond := HG_ERROR 4, HG_Destroy := HG_SUCCESS }

/-- A quiet transport: no completion is ever ready, every `HG_Progress` call
reports progress, and the flag is set while the first `HG_Progress` call is
blocking (the first two reads yield `0`, the later ones `1`). -/
def world_quiet : World :=
  { shutdown_flag := fun k => if k < 2 then 0 else 1
    HG_Trigger := fun _ => (HG_TIMEOUT, 0)
    HG_Progress := fun _ => HG_SUCCESS }

/-- A transport with two completions ready at the start; every `HG_Progress`
call times out; the flag is set while the first `HG_Progress` call is
blocking. -/
def world_busy : World :=
  { shutdown_flag := fun k => if k < 2 then 0 else 1
    HG_Trigger := fun k => if k < 2 then (HG_SUCCESS, 1) else (HG_TIMEOUT, 0)
    HG_Progress := fun _ => HG_TIMEOUT }

/-- A transport whose `HG_Trigger` fails with status `HG_ERROR 12` on every
call while `HG_Progress` reports progress; the flag is set while the first
`HG_Progress` call is blocking. -/
def world_trigger_error : World :=
  { shutdown_flag := fun k => if k < 2 then 0 else 1
    HG_Trigger := fun _ => (HG_ERROR 12, 0)
    HG_Progress := fun _ => HG_SUCCESS }

/-- A transport whose `HG_Progress` fails with status `HG_ERROR 12`; the flag
is never set. -/
def world_progress_error : World :=
  { shutdown_flag := fun _ => 0
    HG_Trigger := fun _ => (HG_TIMEOUT, 0)
    HG_Progress := fun _ => HG_ERROR 12 }

/-- A transport whose `HG_Trigger` fails with status `HG_ERROR 12`; the flag
is set right after the first read at the loop head and stays set. -/
def world_drain_error : World :=
  { shutdown_flag := fun k => if k < 1 then 0 else 1
    HG_Trigger := fun _ => (HG_ERROR 12, 0)
    HG_Progress := fun _ => HG_SUCCESS }

/-- A transport under sustained load: every `HG_Trigger` call delivers a
completion.  The flag is set right after the first read (the read at the loop
head yields `0`, every later read `1`) and stays set. -/
def world_flood : World :=
  { shutdown_flag := fun k => if k < 1 then 0 else 1
    HG_Trigger := fun _ => (HG_SUCCESS, 1)
    HG_Progress := fun _ => HG_SUCCESS }

/-! ## Basic facts about `step` and `exec` -/

theorem exec_add (w : World) (m n : Nat) (s : PState) :
    exec w (m + n) s = exec w n (exec w m s) := by
  induction m generalizing s with
  | zero => simp [exec]
  | succ m ih => rw [Nat.succ_add]; simp only [exec]; exact ih (step w s)

theorem exec_one (w : World) (s : PState) : exec w 1 s = step w s := rfl

theorem exec_two (w : World) (s : PState) : exec w 2 s = exec w 1 (step w s) := rfl

theorem exec_succ_last (w : World) (n : Nat) (s : PState) :
    exec w (n + 1) s = step w (exec w n s) := by
  rw [exec_add]; rfl

theorem progress_fn_add (w : World) (context : Nat) (ret0 : hg_return_t) (count0 m n : Nat) :
    progress_fn w context ret0 count0 (m + n) = exec w n (progress_fn w context ret0 count0 m) := by
  unfold progress_fn; exact exec_add w m n _

theorem step_context (w : World) (s : PState) : (step w s).context = s.context := by
  unfold step; split <;> (try split) <;> rfl

theorem exec_context (w : World) (n : Nat) (s : PState) : (exec w n s).context = s.context := by
  induction n generalizing s with
  | zero => rfl
  | succ n ih => simp only [exec]; rw [ih, step_context]

theorem progress_fn_context (w : World) (context : Nat) (ret0 : hg_return_t) (count0 n : Nat) :
    (progress_fn w context ret0 count0 n).context = context := by
  unfold progress_fn; rw [exec_context]; rfl

theorem exec_aborted (w : World) (n : Nat) (s : PState) (h : s.loc = Loc.aborted) :
    exec w n s = s := by
  induction n with
  | zero => rfl
  | succ n ih =>
    simp only [exec]
    have : step w s = s := by unfold step; rw [h]
    rw [this]; exact ih

theorem exec_returned (w : World) (n : Nat) (s : PState) (h : s.loc = Loc.returned) :
    exec w n s = s := by
  induction n with
  | zero => rfl
  | succ n ih =>
    simp only [exec]
    have : step w s = s := by unfold step; rw [h]
    rw [this]; exact ih

theorem step_loop_head (w : World) (s : PState) (h : s.loc = Loc.loop_head) :
    step w s = { s with
      loc := if w.shutdown_flag s.reads = 0 then Loc.trigger else Loc.returned
      reads := s.reads + 1
      trace := s.trace ++ [Event.read_shutdown_flag (w.shutdown_flag s.reads)] } := by
  unfold step; rw [h]

theorem step_trigger (w : World) (s : PState) (h : s.loc = Loc.trigger) :
    step w s = { s with
      loc := Loc.drain_test
      ret := (w.HG_Trigger s.triggers).1
      actual_count := (w.HG_Trigger s.triggers).2
      triggers := s.triggers + 1
      trace := s.trace ++ [Event.HG_Trigger s.context 0 1 (w.HG_Trigger s.triggers).1
        (w.HG_Trigger s.triggers).2] } := by
  unfold step; rw [h]

theorem step_drain_test (w : World) (s : PState) (h : s.loc = Loc.drain_test) :
    step w s = { s with
      loc := if s.ret = HG_SUCCESS ∧ s.actual_count ≠ 0 then Loc.trigger else Loc.skip_test } := by
  unfold step; rw [h]

theorem step_skip_test (w : World) (s : PState) (h : s.loc = Loc.skip_test) :
    step w s = { s with
      loc := if w.shutdown_flag s.reads = 0 then Loc.progress else Loc.ret_test
      reads := s.reads + 1
      trace := s.trace ++ [Event.read_shutdown_flag (w.shutdown_flag s.reads)] } := by
  unfold step; rw [h]

theorem step_progress (w : World) (s : PState) (h : s.loc = Loc.progress) :
    step w s = { s with
      loc := Loc.ret_test
      ret := w.HG_Progress s.progresses
      progresses := s.progresses + 1
      trace := s.trace ++ [Event.HG_Progress s.context 100 (w.HG_Progress s.progresses)] } := by
  unfold step; rw [h]

theorem step_ret_test_ok (w : World) (s : PState) (h : s.loc = Loc.ret_test)
    (hr : Accepted s.ret) : step w s = { s with loc := Loc.loop_head } := by
  unfold step; rw [h]
  have : ¬ (s.ret ≠ HG_SUCCESS ∧ s.ret ≠ HG_TIMEOUT) := by
    rcases hr with hr | hr <;> simp [hr]
  rw [if_neg this]

theorem step_ret_test_bad (w : World) (s : PState) (h : s.loc = Loc.ret_test)
    (hr : ¬ Accepted s.ret) :
    step w s = { s with loc := Loc.aborted, trace := s.trace ++ [Event.abort] } := by
  unfold step; rw [h]
  have : s.ret ≠ HG_SUCCESS ∧ s.ret ≠ HG_TIMEOUT := by
    unfold Accepted at hr; push_neg at hr; exact hr
  rw [if_pos this]

/-- After the call of line 40 the test of line 42 decides on the status the
call returned: an accepted status leads to the loop head, any other one to the
abort. -/
theorem exec_two_of_progress (w : World) (s : PState) (h : s.loc = Loc.progress) :
    exec w 2 s = { s with
      loc := if Accepted (w.HG_Progress s.progresses) then Loc.loop_head else Loc.aborted
      ret := w.HG_Progress s.progresses
      progresses := s.progresses + 1
      trace := s.trace ++ [Event.HG_Progress s.context 100 (w.HG_Progress s.progresses)] ++
        (if Accepted (w.HG_Progress s.progresses) then [] else [Event.abort]) } := by
  simp only [exec]
  rw [step_progress w s h]
  by_cases hr : Accepted (w.HG_Progress s.progresses)
  · rw [step_ret_test_ok w _ rfl hr]; simp [hr]
  · rw [step_ret_test_bad w _ rfl hr]; simp [hr]

/-! ## C2: the result of the blocking call -/

/-- C2: in every run of `progress_fn`, when the poller is at the `HG_Progress`
call of line 40 and the call returns `r`: if `r` is `HG_SUCCESS` or
`HG_TIMEOUT` the poller does not abort and, by the same state update in both
cases, is at the loop head two steps later having done nothing but the call;
if `r` is any other status the poller is aborted two steps later and stays so
(it neither iterates nor returns). -/
theorem C2_progress_result (w : World) (context : Nat) (ret0 : hg_return_t) (count0 n : Nat)
    (s : PState) (hs : progress_fn w context ret0 count0 n = s) (hloc : s.loc = Loc.progress) :
    (∀ r, w.HG_Progress s.progresses = r → (r = HG_SUCCESS ∨ r = HG_TIMEOUT) →
      progress_fn w context ret0 count0 (n + 2) =
        { s with
          loc := Loc.loop_head
          ret := r
          progresses := s.progresses + 1
          trace := s.trace ++ [Event.HG_Progress context 100 r] }) ∧
    (∀ r, w.HG_Progress s.progresses = r → r ≠ HG_SUCCESS → r ≠ HG_TIMEOUT →
      ∀ k, progress_fn w context ret0 count0 (n + 2 + k) =
        { s with
          loc := Loc.aborted
          ret := r
          progresses := s.progresses + 1
          trace := s.trace ++ [Event.HG_Progress context 100 r, Event.abort] }) := by
  have hc : s.context = context := by rw [← hs]; exact progress_fn_context w context ret0 count0 n
  constructor
  · intro r hr hacc
    rw [progress_fn_add, hs, exec_two_of_progress w s hloc, hr, hc]
    have : Accepted r := hacc
    simp [this]
  · intro r hr h1 h2 k
    rw [progress_fn_add, progress_fn_add, hs, exec_two_of_progress w s hloc, hr, hc]
    have : ¬ Accepted r := by unfold Accepted; push_neg; exact ⟨h1, h2⟩
    rw [exec_aborted _ _ _ (by simp [this])]
    simp [this]

/-- C2, at a concrete run: with `world_progress_error` the poller is at line 40
after 4 steps, the call returns `HG_ERROR 12`, and the poller is aborted from
step 6 on. -/
theorem C2_progress_result_witness :
    (progress_fn world_progress_error 7 HG_SUCCESS 0 4).loc = Loc.progress ∧
    (progress_fn world_progress_error 7 HG_SUCCESS 0 (4 + 2 + 10)).loc = Loc.aborted ∧
    (progress_fn world_quiet 7 HG_SUCCESS 0 4).loc = Loc.progress ∧
    (progress_fn world_quiet 7 HG_SUCCESS 0 (4 + 2)).loc = Loc.loop_head :=
  ⟨by decide,
   congrArg PState.loc
     ((C2_progress_result world_progress_error 7 HG_SUCCESS 0 4 _ rfl (by decide)).2
       (HG_ERROR 12) rfl (by decide) (by decide) 10),
   by decide,
   congrArg PState.loc
     ((C2_progress_result world_quiet 7 HG_SUCCESS 0 4 _ rfl (by decide)).1
       HG_SUCCESS rfl (Or.inl rfl))⟩

/-! ## C4: block or skip -/

/-- The test of line 42 on a state whose `ret` is known. -/
theorem step_ret_test (w : World) (s : PState) (h : s.loc = Loc.ret_test) :
    step w s = { s with
      loc := if Accepted s.ret then Loc.loop_head else Loc.aborted
      trace := s.trace ++ (if Accepted s.ret then [] else [Event.abort]) } := by
  by_cases hr : Accepted s.ret
  · rw [step_ret_test_ok w s h hr]; simp [hr]
  · rw [step_ret_test_bad w s h hr]; simp [hr]

/-- C4: in every run of `progress_fn`, when the drain has ended and the poller
is at the test of line 39: if the flag is read as set, the iteration ends two
steps later (at the loop head, or aborted by the test of line 42 on the status
left by the drain) without any `HG_Progress` call; if the flag is read as not
set, the iteration ends three steps later having called `HG_Progress` exactly
once, on the context of the poller and with timeout `100`. -/
theorem C4_block_or_skip (w : World) (context : Nat) (ret0 : hg_return_t) (count0 n : Nat)
    (s : PState) (hs : progress_fn w context ret0 count0 n = s) (hloc : s.loc = Loc.skip_test) :
    (w.shutdown_flag s.reads ≠ 0 →
      progress_fn w context ret0 count0 (n + 2) =
        { s with
          loc := if Accepted s.ret then Loc.loop_head else Loc.aborted
          reads := s.reads + 1
          trace := s.trace ++ [Event.read_shutdown_flag (w.shutdown_flag s.reads)] ++
            (if Accepted s.ret then [] else [Event.abort]) }) ∧
    (w.shutdown_flag s.reads = 0 →
      progress_fn w context ret0 count0 (n + 3) =
        { s with
          loc := if Accepted (w.HG_Progress s.progresses) then Loc.loop_head else Loc.aborted
          reads := s.reads + 1
          ret := w.HG_Progress s.progresses
          progresses := s.progresses + 1
          trace := s.trace ++ [Event.read_shutdown_flag 0,
              Event.HG_Progress context 100 (w.HG_Progress s.progresses)] ++
            (if Accepted (w.HG_Progress s.progresses) then [] else [Event.abort]) }) := by
  have hc : s.context = context := by rw [← hs]; exact progress_fn_context w context ret0 count0 n
  constructor
  · intro hv
    rw [progress_fn_add, hs]
    simp only [exec]
    rw [step_skip_test w s hloc, if_neg hv, step_ret_test w _ rfl]
  · intro hv
    rw [progress_fn_add, hs]
    show exec w 2 (step w s) = _
    rw [step_skip_test w s hloc, if_pos hv, exec_two_of_progress w _ rfl, hv, hc]
    simp

/-- C4, at a concrete run: with `world_quiet` the poller is at line 39 after 3
steps and reads the flag as `0`; three steps later it has made exactly the one
call `HG_Progress(7, 100)`. -/
theorem C4_block_or_skip_witness :
    (progress_fn world_quiet 7 HG_SUCCESS 0 3).loc = Loc.skip_test ∧
    (progress_fn world_quiet 7 HG_SUCCESS 0 (3 + 3)).trace =
      (progress_fn world_quiet 7 HG_SUCCESS 0 3).trace ++
        [Event.read_shutdown_flag 0, Event.HG_Progress 7 100 HG_SUCCESS] :=
  ⟨by decide,
   (congrArg PState.trace
     ((C4_block_or_skip world_quiet 7 HG_SUCCESS 0 3 _ rfl (by decide)).2 (by decide))).trans
     (by decide)⟩

/-! ## C5: the drain -/

theorem trigger_events_succ (w : World) (context k m : Nat) :
    trigger_events w context k (m + 1) =
      Event.HG_Trigger context 0 1 (w.HG_Trigger k).1 (w.HG_Trigger k).2 ::
        trigger_events w context (k + 1) m := by
  unfold trigger_events
  rw [List.range_succ_eq_map, List.map_cons, List.map_map]
  congr 1
  apply List.map_congr_left
  intro j _
  simp only [Function.comp, Nat.succ_eq_add_one]
  rw [show k + (j + 1) = k + 1 + j by omega]

/-- One round of the do-while of lines 35-37 from line 36: the call and the
test. -/
theorem exec_two_of_trigger (w : World) (s : PState) (h : s.loc = Loc.trigger) :
    exec w 2 s = { s with
      loc := if Ready w s.triggers then Loc.trigger else Loc.skip_test
      ret := (w.HG_Trigger s.triggers).1
      actual_count := (w.HG_Trigger s.triggers).2
      triggers := s.triggers + 1
      trace := s.trace ++ [Event.HG_Trigger s.context 0 1 (w.HG_Trigger s.triggers).1
        (w.HG_Trigger s.triggers).2] } := by
  simp only [exec]
  rw [step_trigger w s h, step_drain_test w _ rfl]
  rfl

/-- The drain: when the next `m` calls of `HG_Trigger` deliver a completion
and the one after them does not, the do-while makes exactly these `m + 1`
calls and nothing else, and leaves at line 39. -/
theorem exec_drain (w : World) (m : Nat) : ∀ s : PState, s.loc = Loc.trigger →
    (∀ j, j < m → Ready w (s.triggers + j)) → ¬ Ready w (s.triggers + m) →
    exec w (2 * (m + 1)) s = { s with
      loc := Loc.skip_test
      ret := (w.HG_Trigger (s.triggers + m)).1
      actual_count := (w.HG_Trigger (s.triggers + m)).2
      triggers := s.triggers + m + 1
      trace := s.trace ++ trigger_events w s.context s.triggers (m + 1) } := by
  induction m with
  | zero =>
    intro s h _ hn
    rw [show 2 * (0 + 1) = 2 from rfl, exec_two_of_trigger w s h]
    rw [Nat.add_zero] at hn
    simp [hn, trigger_events, List.range_succ]
  | succ m ih =>
    intro s h hr hn
    rw [show 2 * (m + 1 + 1) = 2 + 2 * (m + 1) by omega, exec_add, exec_two_of_trigger w s h]
    have h0 : Ready w s.triggers := by simpa using hr 0 (Nat.succ_pos m)
    rw [if_pos h0, ih _ rfl]
    · rw [trigger_events_succ w s.context s.triggers (m + 1)]
      simp only [PState.mk.injEq, List.append_assoc, List.singleton_append, true_and]
      rw [show s.triggers + 1 + m = s.triggers + (m + 1) by omega]
      exact ⟨rfl, rfl, rfl, trivial⟩
    · intro j hj
      show Ready w (s.triggers + 1 + j)
      rw [show s.triggers + 1 + j = s.triggers + (j + 1) by omega]
      exact hr (j + 1) (by omega)
    · show ¬ Ready w (s.triggers + 1 + m)
      rw [show s.triggers + 1 + m = s.triggers + (m + 1) by omega]
      exact hn

/-- While the calls of `HG_Trigger` deliver completions the do-while repeats
the call at once: after `j` delivering calls the poller is at line 36 again,
having done these `j` calls and nothing else. -/
theorem exec_drain_ready (w : World) (j : Nat) : ∀ s : PState, s.loc = Loc.trigger →
    (∀ i, i < j → Ready w (s.triggers + i)) →
    (exec w (2 * j) s).loc = Loc.trigger ∧
    (exec w (2 * j) s).triggers = s.triggers + j ∧
    (exec w (2 * j) s).reads = s.reads ∧
    (exec w (2 * j) s).progresses = s.progresses ∧
    (exec w (2 * j) s).trace = s.trace ++ trigger_events w s.context s.triggers j := by
  induction j with
  | zero =>
    intro s h _
    exact ⟨h, rfl, rfl, rfl, by simp [exec, trigger_events]⟩
  | succ j ih =>
    intro s h hr
    have h0 : Ready w s.triggers := by simpa using hr 0 (Nat.succ_pos j)
    have e : exec w (2 * (j + 1)) s = exec w (2 * j)
        { s with
          loc := Loc.trigger
          ret := (w.HG_Trigger s.triggers).1
          actual_count := (w.HG_Trigger s.triggers).2
          triggers := s.triggers + 1
          trace := s.trace ++ [Event.HG_Trigger s.context 0 1 (w.HG_Trigger s.triggers).1
            (w.HG_Trigger s.triggers).2] } := by
      rw [show 2 * (j + 1) = 2 + 2 * j by omega, exec_add, exec_two_of_trigger w s h,
        if_pos h0]
    obtain ⟨a, b, c, d, t⟩ := ih
      { s with
        loc := Loc.trigger
        ret := (w.HG_Trigger s.triggers).1
        actual_count := (w.HG_Trigger s.triggers).2
        triggers := s.triggers + 1
        trace := s.trace ++ [Event.HG_Trigger s.context 0 1 (w.HG_Trigger s.triggers).1
          (w.HG_Trigger s.triggers).2] } rfl
      (by
        intro i hi
        show Ready w (s.triggers + 1 + i)
        rw [show s.triggers + 1 + i = s.triggers + (i + 1) by omega]
        exact hr (i + 1) (by omega))
    rw [e]
    refine ⟨a, ?_, c, d, ?_⟩
    · rw [b]; show s.triggers + 1 + j = s.triggers + (j + 1); omega
    · rw [t, trigger_events_succ w s.context s.triggers j]
      simp

theorem step_progresses_le (w : World) (s : PState) : s.progresses ≤ (step w s).progresses := by
  unfold step; split <;> (try split) <;> simp

theorem exec_progresses_le (w : World) (n : Nat) (s : PState) :
    s.progresses ≤ (exec w n s).progresses := by
  induction n generalizing s with
  | zero => exact Nat.le_refl _
  | succ n ih => exact Nat.le_trans (step_progresses_le w s) (ih (step w s))

/-- When the number of `HG_Progress` calls is the same at the start and at the
end of a run segment, it is the same at every point in between. -/
theorem progresses_const (w : World) (s : PState) (N : Nat)
    (h : (exec w N s).progresses = s.progresses) (j : Nat) (hj : j ≤ N) :
    (exec w j s).progresses = s.progresses := by
  have h1 := exec_progresses_le w j s
  have h2 := exec_progresses_le w (N - j) (exec w j s)
  rw [← exec_add, Nat.add_sub_cancel' hj, h] at h2
  exact Nat.le_antisymm h2 h1

/-- C5: in every run of `progress_fn`, take an outer iteration (the loop head
reads the flag as `0`) in which the next `m` calls of `HG_Trigger` deliver a
completion (`HG_SUCCESS` with a non-zero count) and the call after them does
not (count `0` or another status).  Then the iteration performs, right after
the read at the loop head, exactly these `m + 1` calls
`HG_Trigger(context, 0, 1, _)` back to back; the drain stops at the first call
that reports no completion and leaves at the test of line 39; and no
`HG_Progress` call is made at any point from the loop head to the end of the
drain.  Moreover, as long as the calls made so far in the iteration all
delivered a completion (`j` of them), the poller is at the `HG_Trigger` call
again, with no read of the flag and no `HG_Progress` call in between. -/
theorem C5_drain_then_block (w : World) (context : Nat) (ret0 : hg_return_t) (count0 n : Nat)
    (s : PState) (hs : progress_fn w context ret0 count0 n = s) (hloc : s.loc = Loc.loop_head)
    (hflag : w.shutdown_flag s.reads = 0) (m : Nat)
    (hready : ∀ j, j < m → Ready w (s.triggers + j)) (hstop : ¬ Ready w (s.triggers + m)) :
    progress_fn w context ret0 count0 (n + (1 + 2 * (m + 1))) =
      { s with
        loc := Loc.skip_test
        reads := s.reads + 1
        ret := (w.HG_Trigger (s.triggers + m)).1
        actual_count := (w.HG_Trigger (s.triggers + m)).2
        triggers := s.triggers + (m + 1)
        trace := s.trace ++ Event.read_shutdown_flag 0 ::
          trigger_events w context s.triggers (m + 1) } ∧
    (trigger_events w context s.triggers (m + 1)).length = m + 1 ∧
    (∀ j, j ≤ 1 + 2 * (m + 1) →
      (progress_fn w context ret0 count0 (n + j)).progresses = s.progresses) ∧
    (∀ j, (∀ i, i < j → Ready w (s.triggers + i)) →
      (progress_fn w context ret0 count0 (n + (1 + 2 * j))).loc = Loc.trigger ∧
      (progress_fn w context ret0 count0 (n + (1 + 2 * j))).trace =
        s.trace ++ Event.read_shutdown_flag 0 :: trigger_events w context s.triggers j) := by
  have hc : s.context = context := by rw [← hs]; exact progress_fn_context w context ret0 count0 n
  have key : exec w (1 + 2 * (m + 1)) s =
      { s with
        loc := Loc.skip_test
        reads := s.reads + 1
        ret := (w.HG_Trigger (s.triggers + m)).1
        actual_count := (w.HG_Trigger (s.triggers + m)).2
        triggers := s.triggers + (m + 1)
        trace := s.trace ++ Event.read_shutdown_flag 0 ::
          trigger_events w context s.triggers (m + 1) } := by
    rw [exec_add]
    show exec w (2 * (m + 1)) (step w s) = _
    rw [step_loop_head w s hloc, if_pos hflag, hflag]
    rw [exec_drain w m { s with
        loc := Loc.trigger
        reads := s.reads + 1
        trace := s.trace ++ [Event.read_shutdown_flag 0] } rfl hready hstop, hc]
    simp [Nat.add_assoc]
  refine ⟨?_, ?_, ?_, ?_⟩
  · rw [progress_fn_add, hs]; exact key
  · simp [trigger_events]
  · intro j hj
    rw [progress_fn_add, hs]
    exact progresses_const w s _ (by rw [key]) j hj
  · intro j hj
    rw [progress_fn_add, hs, exec_add, exec_one, step_loop_head w s hloc, if_pos hflag, hflag]
    obtain ⟨a, _, _, _, t⟩ := exec_drain_ready w j
      { s with
        loc := Loc.trigger
        reads := s.reads + 1
        trace := s.trace ++ [Event.read_shutdown_flag 0] } rfl hj
    refine ⟨a, ?_⟩
    rw [t, hc]
    simp

/-- C5, at a concrete run: with `world_busy` two completions are ready when
`progress_fn` is entered, and the first iteration makes exactly three calls of
`HG_Trigger` before reaching line 39. -/
theorem C5_drain_then_block_witness :
    (progress_fn world_busy 7 HG_SUCCESS 0 (0 + (1 + 2 * (2 + 1)))).trace =
        [Event.read_shutdown_flag 0, Event.HG_Trigger 7 0 1 HG_SUCCESS 1,
          Event.HG_Trigger 7 0 1 HG_SUCCESS 1, Event.HG_Trigger 7 0 1 HG_TIMEOUT 0] ∧
    (progress_fn world_busy 7 HG_SUCCESS 0 (0 + (1 + 2 * (2 + 1)))).loc = Loc.skip_test :=
  have h := (C5_drain_then_block world_busy 7 HG_SUCCESS 0 0 _ rfl rfl rfl 2
    (by intro j hj; interval_cases j <;> decide) (by decide)).1
  ⟨(congrArg PState.trace h).trans (by decide), congrArg PState.loc h⟩

/-! ## C1: what follows a blocking call -/

/-- C1 fails as stated: with `world_quiet` the flag is set while the first
`HG_Progress` call is blocking; the call returns `HG_SUCCESS`, the loop head
reads the flag as set and the poller returns after 7 steps.  The events of the
whole run are listed: no `HG_Trigger` call follows the `HG_Progress` call. -/
theorem C1_counterexample :
    (progress_fn world_quiet 7 HG_SUCCESS 0 7).loc = Loc.returned ∧
    (progress_fn world_quiet 7 HG_SUCCESS 0 7).trace =
      [Event.read_shutdown_flag 0, Event.HG_Trigger 7 0 1 HG_TIMEOUT 0,
        Event.read_shutdown_flag 0, Event.HG_Progress 7 100 HG_SUCCESS,
        Event.read_shutdown_flag 1] ∧
    progress_then_trigger (progress_fn world_quiet 7 HG_SUCCESS 0 7).trace = false := by
  decide

/-- C1, amended: in every run of `progress_fn`, an `HG_Progress` call that
returns `HG_SUCCESS` or `HG_TIMEOUT` is followed directly by the read of
`shutdown_flag` at the loop head.  When that read finds the flag not set, the
next call is an `HG_Trigger` call (a drain runs before the poller can block or
return).  When it finds the flag set, the poller returns and stays returned
with no further event at all, in particular no further `HG_Trigger` call. -/
theorem C1_after_blocking_call (w : World) (context : Nat) (ret0 : hg_return_t)
    (count0 n : Nat) (s : PState) (hs : progress_fn w context ret0 count0 n = s)
    (hloc : s.loc = Loc.progress) (hacc : Accepted (w.HG_Progress s.progresses)) :
    (w.shutdown_flag s.reads = 0 →
      progress_fn w context ret0 count0 (n + 4) =
        { s with
          loc := Loc.drain_test
          ret := (w.HG_Trigger s.triggers).1
          actual_count := (w.HG_Trigger s.triggers).2
          reads := s.reads + 1
          triggers := s.triggers + 1
          progresses := s.progresses + 1
          trace := s.trace ++ [Event.HG_Progress context 100 (w.HG_Progress s.progresses),
            Event.read_shutdown_flag 0,
            Event.HG_Trigger context 0 1 (w.HG_Trigger s.triggers).1
              (w.HG_Trigger s.triggers).2] }) ∧
    (w.shutdown_flag s.reads ≠ 0 →
      ∀ k, progress_fn w context ret0 count0 (n + 3 + k) =
        { s with
          loc := Loc.returned
          ret := w.HG_Progress s.progresses
          reads := s.reads + 1
          progresses := s.progresses + 1
          trace := s.trace ++ [Event.HG_Progress context 100 (w.HG_Progress s.progresses),
            Event.read_shutdown_flag (w.shutdown_flag s.reads)] }) := by
  have hc : s.context = context := by rw [← hs]; exact progress_fn_context w context ret0 count0 n
  have h2 := exec_two_of_progress w s hloc
  rw [if_pos hacc, if_pos hacc, hc] at h2
  constructor
  · intro hv
    rw [show n + 4 = n + (2 + 2) by omega, progress_fn_add, hs, exec_add, h2]
    show exec w 1 (step w _) = _
    rw [step_loop_head w _ rfl, if_pos hv, hv, exec_one, step_trigger w _ rfl]
    simp [hc]
  · intro hv k
    rw [show n + 3 + k = n + (2 + (1 + k)) by omega, progress_fn_add, hs, exec_add, h2, exec_add]
    rw [exec_one, step_loop_head w _ rfl, if_neg hv, exec_returned w k _ rfl]
    simp [hc]

/-- C1 amended, at a concrete run: with `world_quiet` the poller is at the
`HG_Progress` call after 4 steps, the flag is read as `1` next, and the poller
has returned 3 steps later and is still returned 10 steps after that, with no
`HG_Trigger` call after the blocking call. -/
theorem C1_after_blocking_call_witness :
    (progress_fn world_quiet 7 HG_SUCCESS 0 4).loc = Loc.progress ∧
    (progress_fn world_quiet 7 HG_SUCCESS 0 (4 + 3 + 10)).loc = Loc.returned ∧
    (progress_fn world_quiet 7 HG_SUCCESS 0 (4 + 3 + 10)).trace =
      [Event.read_shutdown_flag 0, Event.HG_Trigger 7 0 1 HG_TIMEOUT 0,
        Event.read_shutdown_flag 0, Event.HG_Progress 7 100 HG_SUCCESS,
        Event.read_shutdown_flag 1] :=
  have h := (C1_after_blocking_call world_quiet 7 HG_SUCCESS 0 4 _ rfl (by decide)
    (by decide)).2 (by decide) 10
  ⟨by decide, congrArg PState.loc h, (congrArg PState.trace h).trans (by decide)⟩

/-! ## C3: error statuses of the two transport calls -/

/-- C3 fails as stated: with `world_trigger_error` the first `HG_Trigger` call
returns the error status `HG_ERROR 12`, yet the poller goes on to call
`HG_Progress` on the context and returns normally after 7 steps, without
aborting. -/
theorem C3_counterexample :
    (progress_fn world_trigger_error 7 HG_SUCCESS 0 7).loc = Loc.returned ∧
    (progress_fn world_trigger_error 7 HG_SUCCESS 0 7).trace =
      [Event.read_shutdown_flag 0, Event.HG_Trigger 7 0 1 (HG_ERROR 12) 0,
        Event.read_shutdown_flag 0, Event.HG_Progress 7 100 HG_SUCCESS,
        Event.read_shutdown_flag 1] := by
  decide

/-- C3, amended: in every run of `progress_fn`, (1) an `HG_Progress` call that
returns a status other than `HG_SUCCESS` and `HG_TIMEOUT` aborts the poller,
which stays aborted; (2) an `HG_Trigger` call that returns such a status only
ends the drain (the poller is at line 39 two steps later): when the flag is
then read as not set the poller calls `HG_Progress`, which overwrites the
status, and the poller aborts or continues according to the status of that
`HG_Progress` call alone; when the flag is then read as set the status of the
`HG_Trigger` call reaches the test of line 42 and the poller aborts. -/
theorem C3_error_status (w : World) (context : Nat) (ret0 : hg_return_t)
    (count0 n : Nat) (s : PState) (hs : progress_fn w context ret0 count0 n = s) :
    (s.loc = Loc.progress → ¬ Accepted (w.HG_Progress s.progresses) →
      ∀ k, (progress_fn w context ret0 count0 (n + 2 + k)).loc = Loc.aborted) ∧
    (s.loc = Loc.trigger → ¬ Accepted (w.HG_Trigger s.triggers).1 →
      (progress_fn w context ret0 count0 (n + 2)).loc = Loc.skip_test ∧
      (w.shutdown_flag s.reads = 0 →
        progress_fn w context ret0 count0 (n + 5) =
          { s with
            loc := if Accepted (w.HG_Progress s.progresses) then Loc.loop_head else Loc.aborted
            ret := w.HG_Progress s.progresses
            actual_count := (w.HG_Trigger s.triggers).2
            reads := s.reads + 1
            triggers := s.triggers + 1
            progresses := s.progresses + 1
            trace := s.trace ++ [Event.HG_Trigger context 0 1 (w.HG_Trigger s.triggers).1
                (w.HG_Trigger s.triggers).2, Event.read_shutdown_flag 0,
                Event.HG_Progress context 100 (w.HG_Progress s.progresses)] ++
              (if Accepted (w.HG_Progress s.progresses) then [] else [Event.abort]) }) ∧
      (w.shutdown_flag s.reads ≠ 0 →
        ∀ k, (progress_fn w context ret0 count0 (n + 4 + k)).loc = Loc.aborted)) := by
  have hc : s.context = context := by rw [← hs]; exact progress_fn_context w context ret0 count0 n
  constructor
  · intro hloc hbad k
    rw [progress_fn_add, progress_fn_add, hs, exec_two_of_progress w s hloc, if_neg hbad,
      exec_aborted w k _ rfl]
  · intro hloc hbad
    have hnr : ¬ Ready w s.triggers := fun h => hbad (Or.inl h.1)
    have h2 := exec_two_of_trigger w s hloc
    rw [if_neg hnr, hc] at h2
    refine ⟨?_, ?_, ?_⟩
    · rw [progress_fn_add, hs, h2]
    · intro hv
      rw [show n + 5 = n + (2 + (1 + 2)) by omega, progress_fn_add, hs, exec_add, h2, exec_add]
      rw [exec_one, step_skip_test w _ rfl, if_pos hv, hv, exec_two_of_progress w _ rfl]
      simp [hc]
    · intro hv k
      rw [show n + 4 + k = n + (2 + (2 + k)) by omega, progress_fn_add, hs, exec_add, h2,
        exec_add]
      rw [exec_two, step_skip_test w _ rfl, if_neg hv, exec_one,
        step_ret_test_bad w _ rfl hbad, exec_aborted w k _ rfl]

/-- C3 amended, at a concrete run: with `world_trigger_error` the poller is at
the `HG_Trigger` call after 1 step, the call returns `HG_ERROR 12`, the flag is
then read as `0`, and 5 steps later the poller is at the loop head, not
aborted. -/
theorem C3_error_status_witness :
    (progress_fn world_trigger_error 7 HG_SUCCESS 0 1).loc = Loc.trigger ∧
    (progress_fn world_trigger_error 7 HG_SUCCESS 0 (1 + 5)).loc = Loc.loop_head :=
  ⟨by decide,
   (congrArg PState.loc
     (((C3_error_status world_trigger_error 7 HG_SUCCESS 0 1 _ rfl).2 (by decide)
       (by decide)).2.1 (by decide))).trans (by decide)⟩

/-! ## C6: termination after the flag is set -/

theorem exec_terminal (w : World) (n : Nat) (s : PState) (h : Terminal s) : exec w n s = s := by
  rcases h with h | h
  · exact exec_returned w n s h
  · exact exec_aborted w n s h

/-- A terminal state reached after `N` steps is the state after any larger
number of steps. -/
theorem exec_terminal_le (w : World) (s : PState) (N N' : Nat) (hN : N ≤ N')
    (h : Terminal (exec w N s)) : exec w N' s = exec w N s := by
  obtain ⟨d, rfl⟩ := Nat.exists_eq_add_of_le hN
  rw [exec_add, exec_terminal w d _ h]

/-- Among the calls of `HG_Trigger` from the `k`-th on, when the `(k+m)`-th
reports no completion there is a first one that does. -/
theorem first_not_ready (w : World) (k m : Nat) (h : ¬ Ready w (k + m)) :
    ∃ m', m' ≤ m ∧ (∀ j, j < m' → Ready w (k + j)) ∧ ¬ Ready w (k + m') := by
  have hex : ∃ j, ¬ Ready w (k + j) := ⟨m, h⟩
  refine ⟨Nat.find hex, Nat.find_min' hex h, ?_, Nat.find_spec hex⟩
  intro j hj
  exact not_not.mp (Nat.find_min hex hj)

/-- Once the flag is set and stays set, a poller at the loop head returns. -/
theorem exec_of_loop_head_set (w : World) (s : PState) (h : s.loc = Loc.loop_head)
    (hset : w.shutdown_flag s.reads ≠ 0) : (exec w 1 s).loc = Loc.returned := by
  rw [exec_one, step_loop_head w s h, if_neg hset]

/-- Once the flag is set and stays set, a poller at the test of line 42
returns when `ret` is accepted and aborts otherwise. -/
theorem exec_of_ret_test_set (w : World) (s : PState) (h : s.loc = Loc.ret_test)
    (hset : w.shutdown_flag s.reads ≠ 0) :
    (exec w 2 s).loc = if Accepted s.ret then Loc.returned else Loc.aborted := by
  by_cases hr : Accepted s.ret
  · rw [exec_two, step_ret_test_ok w s h hr, if_pos hr]
    exact exec_of_loop_head_set w _ rfl hset
  · rw [exec_two, step_ret_test_bad w s h hr, if_neg hr, exec_aborted w 1 _ rfl]

/-- Once the flag is set and stays set, a poller at the test of line 39 skips
the blocking call. -/
theorem exec_of_skip_test_set (w : World) (s : PState) (h : s.loc = Loc.skip_test)
    (hset : ∀ k, s.reads ≤ k → w.shutdown_flag k ≠ 0) :
    (exec w 3 s).loc = if Accepted s.ret then Loc.returned else Loc.aborted := by
  rw [show 3 = 1 + 2 from rfl, exec_add, exec_one, step_skip_test w s h,
    if_neg (hset _ (Nat.le_refl _))]
  exact exec_of_ret_test_set w _ rfl (hset _ (Nat.le_succ _))

/-- Once the flag is set and stays set, a poller at the blocking call makes
that call and then returns or aborts on its status. -/
theorem exec_of_progress_set (w : World) (s : PState) (h : s.loc = Loc.progress)
    (hset : w.shutdown_flag s.reads ≠ 0) :
    (exec w 3 s).loc =
      if Accepted (w.HG_Progress s.progresses) then Loc.returned else Loc.aborted := by
  rw [show 3 = 1 + 2 from rfl, exec_add, exec_one, step_progress w s h]
  exact exec_of_ret_test_set w _ rfl hset

/-- Once the flag is set and stays set, a poller at the `HG_Trigger` call whose
drain ends with the call numbered `s.triggers + m` finishes the drain and then
returns or aborts on the status of that last call. -/
theorem exec_of_trigger_set (w : World) (s : PState) (h : s.loc = Loc.trigger)
    (hset : ∀ k, s.reads ≤ k → w.shutdown_flag k ≠ 0) (m : Nat)
    (hready : ∀ j, j < m → Ready w (s.triggers + j)) (hstop : ¬ Ready w (s.triggers + m)) :
    (exec w (2 * (m + 1) + 3) s).loc =
      if Accepted (w.HG_Trigger (s.triggers + m)).1 then Loc.returned else Loc.aborted := by
  rw [exec_add, exec_drain w m s h hready hstop]
  exact exec_of_skip_test_set w _ rfl hset

/-- Once the flag is set and stays set, a step from a location other than the
blocking call makes no `HG_Progress` call and does not lead to it. -/
theorem step_when_set (w : World) (s : PState)
    (hset : ∀ k, s.reads ≤ k → w.shutdown_flag k ≠ 0) (hl : s.loc ≠ Loc.progress) :
    (step w s).loc ≠ Loc.progress ∧ (step w s).progresses = s.progresses ∧
      s.reads ≤ (step w s).reads := by
  have h0 := hset s.reads (Nat.le_refl _)
  cases hloc : s.loc with
  | loop_head => rw [step_loop_head w s hloc]; simp [h0]
  | trigger => rw [step_trigger w s hloc]; simp
  | drain_test =>
    rw [step_drain_test w s hloc]
    refine ⟨?_, rfl, Nat.le_refl _⟩
    show (if s.ret = HG_SUCCESS ∧ s.actual_count ≠ 0 then Loc.trigger else Loc.skip_test) ≠ _
    split <;> simp
  | skip_test => rw [step_skip_test w s hloc]; simp [h0]
  | progress => exact absurd hloc hl
  | ret_test =>
    rw [step_ret_test w s hloc]
    refine ⟨?_, rfl, Nat.le_refl _⟩
    show (if Accepted s.ret then Loc.loop_head else Loc.aborted) ≠ _
    split <;> simp
  | aborted =>
    have e : step w s = s := exec_aborted w 1 s hloc
    rw [e]; exact ⟨hl, rfl, Nat.le_refl _⟩
  | returned =>
    have e : step w s = s := exec_returned w 1 s hloc
    rw [e]; exact ⟨hl, rfl, Nat.le_refl _⟩

/-- Once the flag is set and stays set, a poller that is not at the blocking
call never makes an `HG_Progress` call again. -/
theorem no_progress_when_set (w : World) (j : Nat) : ∀ s : PState,
    (∀ k, s.reads ≤ k → w.shutdown_flag k ≠ 0) → s.loc ≠ Loc.progress →
    (exec w j s).progresses = s.progresses := by
  induction j with
  | zero => intro s _ _; rfl
  | succ j ih =>
    intro s hset hl
    obtain ⟨h1, h2, h3⟩ := step_when_set w s hset hl
    show (exec w j (step w s)).progresses = _
    rw [ih (step w s) (fun k hk => hset k (Nat.le_trans h3 hk)) h1, h2]

/-- Once the flag is set and stays set, at most one more `HG_Progress` call is
made: the one the poller is at. -/
theorem progress_le_one_when_set (w : World) (j : Nat) (s : PState)
    (hset : ∀ k, s.reads ≤ k → w.shutdown_flag k ≠ 0) :
    (exec w j s).progresses ≤ s.progresses + 1 := by
  by_cases hl : s.loc = Loc.progress
  · cases j with
    | zero => exact Nat.le_succ _
    | succ j =>
      show (exec w j (step w s)).progresses ≤ _
      have hs1 : (step w s).loc ≠ Loc.progress := by rw [step_progress w s hl]; simp
      have hs2 : (step w s).reads = s.reads := by rw [step_progress w s hl]
      have hs3 : (step w s).progresses = s.progresses + 1 := by rw [step_progress w s hl]
      rw [no_progress_when_set w j (step w s) (by rw [hs2]; exact hset) hs1, hs3]
  · rw [no_progress_when_set w j s hset hl]; exact Nat.le_succ _

/-- Once the flag is set and stays set, a poller whose drain ends (the call of
`HG_Trigger` numbered `s.triggers + m` reports no completion) reaches within
`2 * m + 6` steps either the return or the abort; the abort only if the poller
was already aborted or some status is not accepted. -/
theorem terminates_when_set (w : World) (s : PState)
    (hset : ∀ k, s.reads ≤ k → w.shutdown_flag k ≠ 0) (m : Nat)
    (hstop : ¬ Ready w (s.triggers + m)) :
    ∃ N, N ≤ 2 * m + 6 ∧ ((exec w N s).loc = Loc.returned ∨
      ((exec w N s).loc = Loc.aborted ∧ (s.loc = Loc.aborted ∨ ¬ Accepted s.ret ∨
        (∃ k, ¬ Accepted (w.HG_Trigger k).1) ∨ ∃ k, ¬ Accepted (w.HG_Progress k)))) := by
  have h0 := hset s.reads (Nat.le_refl _)
  cases hloc : s.loc with
  | loop_head => exact ⟨1, by omega, Or.inl (exec_of_loop_head_set w s hloc h0)⟩
  | trigger =>
    obtain ⟨m', hm', hr, hs'⟩ := first_not_ready w s.triggers m hstop
    refine ⟨2 * (m' + 1) + 3, by omega, ?_⟩
    rw [exec_of_trigger_set w s hloc hset m' hr hs']
    by_cases ha : Accepted (w.HG_Trigger (s.triggers + m')).1
    · rw [if_pos ha]; exact Or.inl rfl
    · rw [if_neg ha]; exact Or.inr ⟨rfl, Or.inr (Or.inr (Or.inl ⟨_, ha⟩))⟩
  | drain_test =>
    by_cases hd : s.ret = HG_SUCCESS ∧ s.actual_count ≠ 0
    · obtain ⟨m', hm', hr, hs'⟩ := first_not_ready w s.triggers m hstop
      refine ⟨1 + (2 * (m' + 1) + 3), by omega, ?_⟩
      rw [exec_add, exec_one, step_drain_test w s hloc, if_pos hd,
        exec_of_trigger_set w { s with loc := Loc.trigger } rfl hset m' hr hs']
      by_cases ha : Accepted (w.HG_Trigger (s.triggers + m')).1
      · rw [if_pos ha]; exact Or.inl rfl
      · rw [if_neg ha]; exact Or.inr ⟨rfl, Or.inr (Or.inr (Or.inl ⟨_, ha⟩))⟩
    · refine ⟨1 + 3, by omega, ?_⟩
      rw [exec_add, exec_one, step_drain_test w s hloc, if_neg hd,
        exec_of_skip_test_set w { s with loc := Loc.skip_test } rfl hset]
      by_cases ha : Accepted s.ret
      · rw [if_pos ha]; exact Or.inl rfl
      · rw [if_neg ha]; exact Or.inr ⟨rfl, Or.inr (Or.inl ha)⟩
  | skip_test =>
    refine ⟨3, by omega, ?_⟩
    rw [exec_of_skip_test_set w s hloc hset]
    by_cases ha : Accepted s.ret
    · rw [if_pos ha]; exact Or.inl rfl
    · rw [if_neg ha]; exact Or.inr ⟨rfl, Or.inr (Or.inl ha)⟩
  | progress =>
    refine ⟨3, by omega, ?_⟩
    rw [exec_of_progress_set w s hloc h0]
    by_cases ha : Accepted (w.HG_Progress s.progresses)
    · rw [if_pos ha]; exact Or.inl rfl
    · rw [if_neg ha]; exact Or.inr ⟨rfl, Or.inr (Or.inr (Or.inr ⟨_, ha⟩))⟩
  | ret_test =>
    refine ⟨2, by omega, ?_⟩
    rw [exec_of_ret_test_set w s hloc h0]
    by_cases ha : Accepted s.ret
    · rw [if_pos ha]; exact Or.inl rfl
    · rw [if_neg ha]; exact Or.inr ⟨rfl, Or.inr (Or.inl ha)⟩
  | aborted => exact ⟨0, by omega, Or.inr ⟨hloc, Or.inl rfl⟩⟩
  | returned => exact ⟨0, by omega, Or.inl hloc⟩

/-- Once the flag is set and stays set, a poller that is not in the drain (not
at line 36 or 37) has returned or aborted three steps later, whatever the
transport reports. -/
theorem terminates_outside_drain (w : World) (s : PState)
    (hset : ∀ k, s.reads ≤ k → w.shutdown_flag k ≠ 0)
    (h1 : s.loc ≠ Loc.trigger) (h2 : s.loc ≠ Loc.drain_test) : Terminal (exec w 3 s) := by
  have h0 := hset s.reads (Nat.le_refl _)
  have fin : ∀ N, N ≤ 3 → Terminal (exec w N s) → Terminal (exec w 3 s) := by
    intro N hN ht
    rw [exec_terminal_le w s N 3 hN ht]; exact ht
  have either : ∀ (c : Prop) [Decidable c] (l : Loc),
      l = (if c then Loc.returned else Loc.aborted) → l = Loc.returned ∨ l = Loc.aborted := by
    intro c _ l hl
    by_cases hc : c
    · rw [if_pos hc] at hl; exact Or.inl hl
    · rw [if_neg hc] at hl; exact Or.inr hl
  cases hloc : s.loc with
  | loop_head => exact fin 1 (by omega) (Or.inl (exec_of_loop_head_set w s hloc h0))
  | trigger => exact absurd hloc h1
  | drain_test => exact absurd hloc h2
  | skip_test => exact either _ _ (exec_of_skip_test_set w s hloc hset)
  | progress => exact either _ _ (exec_of_progress_set w s hloc h0)
  | ret_test => exact fin 2 (by omega) (either _ _ (exec_of_ret_test_set w s hloc h0))
  | aborted => exact fin 0 (by omega) (Or.inr hloc)
  | returned => exact fin 0 (by omega) (Or.inl hloc)

/-- A return or abort decided after `N` steps is still the location after any
larger number of steps. -/
theorem loc_lift (w : World) (s : PState) (N N' : Nat) (c : Prop) [Decidable c]
    (hN : N ≤ N') (h : (exec w N s).loc = if c then Loc.returned else Loc.aborted) :
    (exec w N' s).loc = if c then Loc.returned else Loc.aborted := by
  have ht : Terminal (exec w N s) := by
    by_cases hc : c
    · rw [if_pos hc] at h; exact Or.inl h
    · rw [if_neg hc] at h; exact Or.inr h
  rw [exec_terminal_le w s N N' hN ht]
  exact h

/-- Once the flag is set and stays set, a poller whose `ret` is the status
that will reach the test of line 42 (it is at line 39, at line 42, or at line
37 with a drain that has just ended) returns when `ret` is accepted and aborts
otherwise. -/
theorem outcome_of_ret_when_set (w : World) (s : PState)
    (hset : ∀ k, s.reads ≤ k → w.shutdown_flag k ≠ 0)
    (h : s.loc = Loc.skip_test ∨ s.loc = Loc.ret_test ∨
      (s.loc = Loc.drain_test ∧ ¬ (s.ret = HG_SUCCESS ∧ s.actual_count ≠ 0))) :
    (exec w 4 s).loc = if Accepted s.ret then Loc.returned else Loc.aborted := by
  rcases h with h | h | ⟨h, hd⟩
  · exact loc_lift w s 3 4 _ (by omega) (exec_of_skip_test_set w s h hset)
  · exact loc_lift w s 2 4 _ (by omega) (exec_of_ret_test_set w s h (hset _ (Nat.le_refl _)))
  · rw [show 4 = 1 + 3 from rfl, exec_add, exec_one, step_drain_test w s h, if_neg hd]
    exact exec_of_skip_test_set w { s with loc := Loc.skip_test } rfl hset

/-- Once the flag is set and stays set, a poller in a drain that goes on (it
is at line 36, or at line 37 with a delivered completion) and whose first call
to report no completion is the one numbered `s.triggers + m` returns when the
status of that call is accepted and aborts otherwise. -/
theorem outcome_of_drain_when_set (w : World) (s : PState)
    (hset : ∀ k, s.reads ≤ k → w.shutdown_flag k ≠ 0)
    (h : s.loc = Loc.trigger ∨
      (s.loc = Loc.drain_test ∧ s.ret = HG_SUCCESS ∧ s.actual_count ≠ 0))
    (m : Nat) (hready : ∀ j, j < m → Ready w (s.triggers + j))
    (hstop : ¬ Ready w (s.triggers + m)) :
    (exec w (2 * m + 6) s).loc =
      if Accepted (w.HG_Trigger (s.triggers + m)).1 then Loc.returned else Loc.aborted := by
  rcases h with h | ⟨h, hd⟩
  · exact loc_lift w s (2 * (m + 1) + 3) _ _ (by omega)
      (exec_of_trigger_set w s h hset m hready hstop)
  · rw [show 2 * m + 6 = 1 + (2 * (m + 1) + 3) by omega, exec_add, exec_one,
      step_drain_test w s h, if_pos hd]
    exact exec_of_trigger_set w { s with loc := Loc.trigger } rfl hset m hready hstop

/-- With `world_flood` the poller is, from the first step on, either at the
`HG_Trigger` call or at the test of line 37 with a delivered completion. -/
theorem flood_draining (n : Nat) :
    (progress_fn world_flood 7 HG_SUCCESS 0 (n + 1)).loc = Loc.trigger ∨
    ((progress_fn world_flood 7 HG_SUCCESS 0 (n + 1)).loc = Loc.drain_test ∧
      (progress_fn world_flood 7 HG_SUCCESS 0 (n + 1)).ret = HG_SUCCESS ∧
      (progress_fn world_flood 7 HG_SUCCESS 0 (n + 1)).actual_count = 1) := by
  induction n with
  | zero => left; decide
  | succ n ih =>
    have e : progress_fn world_flood 7 HG_SUCCESS 0 (n + 1 + 1) =
        step world_flood (progress_fn world_flood 7 HG_SUCCESS 0 (n + 1)) :=
      exec_succ_last world_flood (n + 1) _
    rw [e]
    rcases ih with h | ⟨h, hr, hc⟩
    · right
      rw [step_trigger _ _ h]
      exact ⟨rfl, rfl, rfl⟩
    · left
      rw [step_drain_test _ _ h, hr, hc]
      rfl

/-- C6 fails as stated: with `world_flood` the flag is set right after the
first read at the loop head (every read from the second on yields `1`) and
stays set, but every `HG_Trigger` call delivers a completion, so the drain
never ends: the poller neither returns nor aborts after any number of
steps. -/
theorem C6_counterexample :
    (progress_fn world_flood 7 HG_SUCCESS 0 1).reads = 1 ∧
    (∀ k, 1 ≤ k → world_flood.shutdown_flag k = 1) ∧
    ¬ ∃ n, Terminal (progress_fn world_flood 7 HG_SUCCESS 0 n) := by
  refine ⟨by decide, ?_, ?_⟩
  · intro k hk
    have : ¬ k < 1 := by omega
    show (if k < 1 then (0 : Int) else 1) = 1
    rw [if_neg this]
  · rintro ⟨n, hn⟩
    cases n with
    | zero => revert hn; unfold Terminal; decide
    | succ n =>
      rcases flood_draining n with h | ⟨h, _, _⟩ <;>
        rcases hn with hn | hn <;> rw [h] at hn <;> exact absurd hn (by decide)

/-- C6, amended: in every run of `progress_fn`, from a point at which
`shutdown_flag` is set and stays set (every read from the next one on finds it
set): (1) at most one more `HG_Progress` call is made; (2) none at all unless
the poller is at the call of line 40, having read the flag as not set just
before; (3) a poller that is not in the drain (not at line 36 or 37) has
returned or aborted three steps later, whatever the transport reports; (4) if
the drain in progress ends, the call of `HG_Trigger` numbered `m` from now
reporting no completion, the poller has returned or aborted within
`2 * m + 6` steps; (5) it has returned if moreover it was not aborted already
and every status is `HG_SUCCESS` or `HG_TIMEOUT`.  Which of the two it is, is
decided by the one status that reaches the test of line 42: (6) from the loop
head the poller returns; (7) from line 39, from line 42, or from line 37 when
the drain has just ended, it returns when the current `ret` is `HG_SUCCESS` or
`HG_TIMEOUT` and aborts when it is any other status; (8) from the blocking
call it returns or aborts in the same way on the status that call returns;
(9) from a drain that goes on (line 36, or line 37 with a delivered
completion) it returns or aborts in the same way on the status of the first
`HG_Trigger` call that reports no completion. -/
theorem C6_after_flag_set (w : World) (context : Nat) (ret0 : hg_return_t)
    (count0 n : Nat) (s : PState) (hs : progress_fn w context ret0 count0 n = s)
    (hset : ∀ k, s.reads ≤ k → w.shutdown_flag k ≠ 0) :
    (∀ j, (progress_fn w context ret0 count0 (n + j)).progresses ≤ s.progresses + 1) ∧
    (s.loc ≠ Loc.progress →
      ∀ j, (progress_fn w context ret0 count0 (n + j)).progresses = s.progresses) ∧
    (s.loc ≠ Loc.trigger → s.loc ≠ Loc.drain_test →
      Terminal (progress_fn w context ret0 count0 (n + 3))) ∧
    (∀ m, ¬ Ready w (s.triggers + m) →
      Terminal (progress_fn w context ret0 count0 (n + (2 * m + 6)))) ∧
    (∀ m, ¬ Ready w (s.triggers + m) → s.loc ≠ Loc.aborted → Accepted s.ret →
      (∀ k, Accepted (w.HG_Trigger k).1) → (∀ k, Accepted (w.HG_Progress k)) →
      (progress_fn w context ret0 count0 (n + (2 * m + 6))).loc = Loc.returned) ∧
    (s.loc = Loc.loop_head →
      (progress_fn w context ret0 count0 (n + 1)).loc = Loc.returned) ∧
    (s.loc = Loc.skip_test ∨ s.loc = Loc.ret_test ∨
        (s.loc = Loc.drain_test ∧ ¬ (s.ret = HG_SUCCESS ∧ s.actual_count ≠ 0)) →
      (progress_fn w context ret0 count0 (n + 4)).loc =
        if Accepted s.ret then Loc.returned else Loc.aborted) ∧
    (s.loc = Loc.progress →
      (progress_fn w context ret0 count0 (n + 3)).loc =
        if Accepted (w.HG_Progress s.progresses) then Loc.returned else Loc.aborted) ∧
    (s.loc = Loc.trigger ∨
        (s.loc = Loc.drain_test ∧ s.ret = HG_SUCCESS ∧ s.actual_count ≠ 0) →
      ∀ m, (∀ j, j < m → Ready w (s.triggers + j)) → ¬ Ready w (s.triggers + m) →
        (progress_fn w context ret0 count0 (n + (2 * m + 6))).loc =
          if Accepted (w.HG_Trigger (s.triggers + m)).1 then Loc.returned
          else Loc.aborted) := by
  have h0 := hset s.reads (Nat.le_refl _)
  refine ⟨?_, ?_, ?_, ?_, ?_, ?_, ?_, ?_, ?_⟩
  · intro j
    rw [progress_fn_add, hs]
    exact progress_le_one_when_set w j s hset
  · intro hl j
    rw [progress_fn_add, hs]
    exact no_progress_when_set w j s hset hl
  · intro h1 h2
    rw [progress_fn_add, hs]
    exact terminates_outside_drain w s hset h1 h2
  · intro m hstop
    rw [progress_fn_add, hs]
    obtain ⟨N, hN, h⟩ := terminates_when_set w s hset m hstop
    have ht : Terminal (exec w N s) := by
      rcases h with h | ⟨h, _⟩
      · exact Or.inl h
      · exact Or.inr h
    rw [exec_terminal_le w s N _ hN ht]
    exact ht
  · intro m hstop hna hret htrig hprog
    rw [progress_fn_add, hs]
    obtain ⟨N, hN, h⟩ := terminates_when_set w s hset m hstop
    rcases h with h | ⟨_, h⟩
    · rw [exec_terminal_le w s N _ hN (Or.inl h)]
      exact h
    · rcases h with h | h | ⟨k, h⟩ | ⟨k, h⟩
      · exact absurd h hna
      · exact absurd hret h
      · exact absurd (htrig k) h
      · exact absurd (hprog k) h
  · intro hl
    rw [progress_fn_add, hs]
    exact exec_of_loop_head_set w s hl h0
  · intro hl
    rw [progress_fn_add, hs]
    exact outcome_of_ret_when_set w s hset hl
  · intro hl
    rw [progress_fn_add, hs]
    exact exec_of_progress_set w s hl h0
  · intro hl m hready hstop
    rw [progress_fn_add, hs]
    exact outcome_of_drain_when_set w s hset hl m hready hstop

/-- C6 amended, at a concrete run: with `world_busy` the poller is at the
`HG_Progress` call after 8 steps, having made 2 reads of the flag; the flag is
set from the third read on; the call of `HG_Trigger` that would come next
reports no completion; and 6 steps later the poller has returned, having made
one `HG_Progress` call.  With `world_drain_error` the flag is set while the
poller is at the first `HG_Trigger` call, the call returns `HG_ERROR 12`, and
6 steps later the poller is aborted. -/
theorem C6_after_flag_set_witness :
    (progress_fn world_busy 7 HG_SUCCESS 0 8).loc = Loc.progress ∧
    (progress_fn world_busy 7 HG_SUCCESS 0 8).reads = 2 ∧
    (progress_fn world_busy 7 HG_SUCCESS 0 (8 + (2 * 0 + 6))).loc = Loc.returned ∧
    (progress_fn world_busy 7 HG_SUCCESS 0 (8 + 6)).progresses ≤
      (progress_fn world_busy 7 HG_SUCCESS 0 8).progresses + 1 ∧
    (progress_fn world_drain_error 7 HG_SUCCESS 0 1).loc = Loc.trigger ∧
    (progress_fn world_drain_error 7 HG_SUCCESS 0 (1 + (2 * 0 + 6))).loc = Loc.aborted :=
  have h' := C6_after_flag_set world_drain_error 7 HG_SUCCESS 0 1 _ rfl
    (by
      intro k hk
      have h2 : 1 ≤ k := hk
      have h3 : ¬ k < 1 := by omega
      show (if k < 1 then (0 : Int) else 1) ≠ 0
      rw [if_neg h3]
      decide)
  have h := C6_after_flag_set world_busy 7 HG_SUCCESS 0 8 _ rfl
    (by
      intro k hk
      have h2 : 2 ≤ k := hk
      have h3 : ¬ k < 2 := by omega
      show (if k < 2 then (0 : Int) else 1) ≠ 0
      rw [if_neg h3]
      decide)
  ⟨by decide, by decide,
   h.2.2.2.2.1 0 (by decide) (by decide) (by decide)
     (by intro k; unfold world_busy Accepted; dsimp only; split <;> simp)
     (by intro k; exact Or.inr rfl),
   h.1 6,
   by decide,
   (h'.2.2.2.2.2.2.2.2 (Or.inl (by decide)) 0 (by intro j hj; omega) (by decide)).trans
     (by decide)⟩

/-! ## The straight-line functions, case by case -/

theorem nm_noop_rpc_cb_respond_fails (env : CbEnv) (handle : Nat)
    (h : env.HG_Respond ≠ HG_SUCCESS) :
    nm_noop_rpc_cb env handle =
      { outcome := Outcome.aborted
        trace := [Event.HG_Respond handle none none none env.HG_Respond, Event.abort] } := by
  unfold nm_noop_rpc_cb; simp [h]

theorem nm_noop_rpc_cb_destroy_fails (env : CbEnv) (handle : Nat)
    (h1 : env.HG_Respond = HG_SUCCESS) (h2 : env.HG_Destroy ≠ HG_SUCCESS) :
    nm_noop_rpc_cb env handle =
      { outcome := Outcome.aborted
        trace := [Event.HG_Respond handle none none none HG_SUCCESS,
          Event.HG_Destroy handle env.HG_Destroy, Event.abort] } := by
  unfold nm_noop_rpc_cb; simp [h1, h2]

theorem nm_noop_rpc_cb_ok (env : CbEnv) (handle : Nat)
    (h1 : env.HG_Respond = HG_SUCCESS) (h2 : env.HG_Destroy = HG_SUCCESS) :
    nm_noop_rpc_cb env handle =
      { outcome := Outcome.returned HG_SUCCESS
        trace := [Event.HG_Respond handle none none none HG_SUCCESS,
          Event.HG_Destroy handle HG_SUCCESS] } := by
  unfold nm_noop_rpc_cb; simp [h1, h2]

theorem nm_run_client_no_context (env : DriverEnv) (cls : Nat)
    (h : env.HG_Context_create_id = 0) :
    nm_run_client env cls =
      { outcome := Outcome.aborted
        trace := [Event.HG_Context_create_id cls NM_ID 0, Event.abort] } := by
  unfold nm_run_client; simp [h]

theorem nm_run_client_no_thread (env : DriverEnv) (cls : Nat)
    (h1 : env.HG_Context_create_id ≠ 0) (h2 : env.pthread_create ≠ 0) :
    nm_run_client env cls =
      { outcome := Outcome.aborted
        trace := [Event.HG_Context_create_id cls NM_ID env.HG_Context_create_id,
          Event.MERCURY_REGISTER cls "nm_noop" none env.MERCURY_REGISTER,
          Event.pthread_create StartRoutine.progress_fn env.HG_Context_create_id env.tid
            env.pthread_create,
          Event.abort] } := by
  unfold nm_run_client; simp [h1, h2]

theorem nm_run_client_ok (env : DriverEnv) (cls : Nat)
    (h1 : env.HG_Context_create_id ≠ 0) (h2 : env.pthread_create = 0) :
    nm_run_client env cls =
      { outcome := Outcome.returned ()
        trace := [Event.HG_Context_create_id cls NM_ID env.HG_Context_create_id,
          Event.MERCURY_REGISTER cls "nm_noop" none env.MERCURY_REGISTER,
          Event.pthread_create StartRoutine.progress_fn env.HG_Context_create_id env.tid 0,
          Event.sleep 1,
          Event.write_shutdown_flag 1,
          Event.pthread_join env.tid env.pthread_join,
          Event.HG_Context_destroy env.HG_Context_create_id env.HG_Context_destroy] } := by
  unfold nm_run_client; simp [h1, h2]

theorem nm_run_server_no_context (env : DriverEnv) (cls : Nat)
    (h : env.HG_Context_create_id = 0) :
    nm_run_server env cls =
      { outcome := Outcome.aborted
        trace := [Event.HG_Context_create_id cls NM_ID 0, Event.abort] } := by
  unfold nm_run_server; simp [h]

theorem nm_run_server_no_thread (env : DriverEnv) (cls : Nat)
    (h1 : env.HG_Context_create_id ≠ 0) (h2 : env.pthread_create ≠ 0) :
    nm_run_server env cls =
      { outcome := Outcome.aborted
        trace := [Event.HG_Context_create_id cls NM_ID env.HG_Context_create_id,
          Event.MERCURY_REGISTER cls "nm_noop" (some Callback.nm_noop_rpc_cb)
            env.MERCURY_REGISTER,
          Event.pthread_create StartRoutine.progress_fn env.HG_Context_create_id env.tid
            env.pthread_create,
          Event.abort] } := by
  unfold nm_run_server; simp [h1, h2]

theorem nm_run_server_ok (env : DriverEnv) (cls : Nat)
    (h1 : env.HG_Context_create_id ≠ 0) (h2 : env.pthread_create = 0) :
    nm_run_server env cls =
      { outcome := Outcome.returned ()
        trace := [Event.HG_Context_create_id cls NM_ID env.HG_Context_create_id,
          Event.MERCURY_REGISTER cls "nm_noop" (some Callback.nm_noop_rpc_cb)
            env.MERCURY_REGISTER,
          Event.pthread_create StartRoutine.progress_fn env.HG_Context_create_id env.tid 0,
          Event.sleep 1,
          Event.write_shutdown_flag 1,
          Event.pthread_join env.tid env.pthread_join,
          Event.HG_Context_destroy env.HG_Context_create_id env.HG_Context_destroy] } := by
  unfold nm_run_server; simp [h1, h2]

/-- A driver run returns exactly when the context and the thread were
created. -/
theorem nm_run_client_returned_iff (env : DriverEnv) (cls : Nat) :
    (nm_run_client env cls).outcome = Outcome.returned () ↔
      env.HG_Context_create_id ≠ 0 ∧ env.pthread_create = 0 := by
  by_cases h1 : env.HG_Context_create_id = 0
  · rw [nm_run_client_no_context env cls h1]; simp [h1]
  · by_cases h2 : env.pthread_create = 0
    · rw [nm_run_client_ok env cls h1 h2]; simp [h1, h2]
    · rw [nm_run_client_no_thread env cls h1 h2]; simp [h1, h2]

theorem nm_run_server_returned_iff (env : DriverEnv) (cls : Nat) :
    (nm_run_server env cls).outcome = Outcome.returned () ↔
      env.HG_Context_create_id ≠ 0 ∧ env.pthread_create = 0 := by
  by_cases h1 : env.HG_Context_create_id = 0
  · rw [nm_run_server_no_context env cls h1]; simp [h1]
  · by_cases h2 : env.pthread_create = 0
    · rw [nm_run_server_ok env cls h1 h2]; simp [h1, h2]
    · rw [nm_run_server_no_thread env cls h1 h2]; simp [h1, h2]

/-- How a driver run ends is decided by the results of the context creation
and of the thread creation alone. -/
theorem outcome_of_setup (env env' : DriverEnv) (cls : Nat)
    (hc : env'.HG_Context_create_id = env.HG_Context_create_id)
    (ht : env'.pthread_create = env.pthread_create) :
    (nm_run_client env' cls).outcome = (nm_run_client env cls).outcome ∧
    (nm_run_server env' cls).outcome = (nm_run_server env cls).outcome := by
  by_cases h1 : env.HG_Context_create_id = 0
  · have h1' : env'.HG_Context_create_id = 0 := by rw [hc, h1]
    rw [nm_run_client_no_context env cls h1, nm_run_server_no_context env cls h1,
      nm_run_client_no_context env' cls h1', nm_run_server_no_context env' cls h1']
    exact ⟨rfl, rfl⟩
  · have h1' : env'.HG_Context_create_id ≠ 0 := by rw [hc]; exact h1
    by_cases h2 : env.pthread_create = 0
    · have h2' : env'.pthread_create = 0 := by rw [ht, h2]
      rw [nm_run_client_ok env cls h1 h2, nm_run_server_ok env cls h1 h2,
        nm_run_client_ok env' cls h1' h2', nm_run_server_ok env' cls h1' h2']
      exact ⟨rfl, rfl⟩
    · have h2' : env'.pthread_create ≠ 0 := by rw [ht]; exact h2
      rw [nm_run_client_no_thread env cls h1 h2, nm_run_server_no_thread env cls h1 h2,
        nm_run_client_no_thread env' cls h1' h2', nm_run_server_no_thread env' cls h1' h2']
      exact ⟨rfl, rfl⟩

/-! ## C7: the failure policy -/

/-- C7 fails as stated: with `env_teardown_fails` the call of `pthread_join`
reports the failure `22` and the call of `HG_Context_destroy` the failure
`HG_ERROR 4`; both drivers nevertheless run every later step and return
normally. -/
theorem C7_counterexample :
    nm_run_client env_teardown_fails 2 =
      { outcome := Outcome.returned ()
        trace := [Event.HG_Context_create_id 2 1 5,
          Event.MERCURY_REGISTER 2 "nm_noop" none 9,
          Event.pthread_create StartRoutine.progress_fn 5 3 0,
          Event.sleep 1,
          Event.write_shutdown_flag 1,
          Event.pthread_join 3 22,
          Event.HG_Context_destroy 5 (HG_ERROR 4)] } ∧
    nm_run_server env_teardown_fails 2 =
      { outcome := Outcome.returned ()
        trace := [Event.HG_Context_create_id 2 1 5,
          Event.MERCURY_REGISTER 2 "nm_noop" (some Callback.nm_noop_rpc_cb) 9,
          Event.pthread_create StartRoutine.progress_fn 5 3 0,
          Event.sleep 1,
          Event.write_shutdown_flag 1,
          Event.pthread_join 3 22,
          Event.HG_Context_destroy 5 (HG_ERROR 4)] } :=
  ⟨rfl, rfl⟩

/-- C7, amended: for context creation, thread creation, reply send and
handle destruction, a reported failure aborts at once and no later step is
executed (the trace ends with the failed call and the abort).  The results of
the procedure registration, of `pthread_join` and of `HG_Context_destroy` are
not examined: how a driver run ends does not depend on them, and once the
context and the thread are created the driver executes every step and
returns whatever they report. -/
theorem C7_fail_fast (env : DriverEnv) (cenv : CbEnv) (cls handle : Nat) :
    (env.HG_Context_create_id = 0 →
      nm_run_client env cls =
        { outcome := Outcome.aborted
          trace := [Event.HG_Context_create_id cls NM_ID 0, Event.abort] } ∧
      nm_run_server env cls =
        { outcome := Outcome.aborted
          trace := [Event.HG_Context_create_id cls NM_ID 0, Event.abort] }) ∧
    (env.HG_Context_create_id ≠ 0 → env.pthread_create ≠ 0 →
      nm_run_client env cls =
        { outcome := Outcome.aborted
          trace := [Event.HG_Context_create_id cls NM_ID env.HG_Context_create_id,
            Event.MERCURY_REGISTER cls "nm_noop" none env.MERCURY_REGISTER,
            Event.pthread_create StartRoutine.progress_fn env.HG_Context_create_id env.tid
              env.pthread_create,
            Event.abort] } ∧
      nm_run_server env cls =
        { outcome := Outcome.aborted
          trace := [Event.HG_Context_create_id cls NM_ID env.HG_Context_create_id,
            Event.MERCURY_REGISTER cls "nm_noop" (some Callback.nm_noop_rpc_cb)
              env.MERCURY_REGISTER,
            Event.pthread_create StartRoutine.progress_fn env.HG_Context_create_id env.tid
              env.pthread_create,
            Event.abort] }) ∧
    (cenv.HG_Respond ≠ HG_SUCCESS →
      nm_noop_rpc_cb cenv handle =
        { outcome := Outcome.aborted
          trace := [Event.HG_Respond handle none none none cenv.HG_Respond, Event.abort] }) ∧
    (cenv.HG_Respond = HG_SUCCESS → cenv.HG_Destroy ≠ HG_SUCCESS →
      nm_noop_rpc_cb cenv handle =
        { outcome := Outcome.aborted
          trace := [Event.HG_Respond handle none none none HG_SUCCESS,
            Event.HG_Destroy handle cenv.HG_Destroy, Event.abort] }) ∧
    (∀ id j d,
      (nm_run_client
          { env with
            MERCURY_REGISTER := id
            pthread_join := j
            HG_Context_destroy := d } cls).outcome = (nm_run_client env cls).outcome ∧
      (nm_run_server
          { env with
            MERCURY_REGISTER := id
            pthread_join := j
            HG_Context_destroy := d } cls).outcome = (nm_run_server env cls).outcome) ∧
    (env.HG_Context_create_id ≠ 0 → env.pthread_create = 0 →
      (nm_run_client env cls).outcome = Outcome.returned () ∧
      (nm_run_server env cls).outcome = Outcome.returned () ∧
      (nm_run_client env cls).trace.getLast? =
        some (Event.HG_Context_destroy env.HG_Context_create_id env.HG_Context_destroy) ∧
      (nm_run_server env cls).trace.getLast? =
        some (Event.HG_Context_destroy env.HG_Context_create_id env.HG_Context_destroy)) := by
  refine ⟨?_, ?_, ?_, ?_, ?_, ?_⟩
  · intro h
    exact ⟨nm_run_client_no_context env cls h, nm_run_server_no_context env cls h⟩
  · intro h1 h2
    exact ⟨nm_run_client_no_thread env cls h1 h2, nm_run_server_no_thread env cls h1 h2⟩
  · exact nm_noop_rpc_cb_respond_fails cenv handle
  · exact nm_noop_rpc_cb_destroy_fails cenv handle
  · intro id j d
    exact outcome_of_setup env _ cls rfl rfl
  · intro h1 h2
    rw [nm_run_client_ok env cls h1 h2, nm_run_server_ok env cls h1 h2]
    exact ⟨rfl, rfl, rfl, rfl⟩

/-- C7 amended, at concrete runs: a failed context creation and a failed
thread creation abort the client; a failed reply aborts the callback before
the handle is destroyed. -/
theorem C7_fail_fast_witness :
    (nm_run_client env_no_context 2).outcome = Outcome.aborted ∧
    (nm_run_client env_no_thread 2).outcome = Outcome.aborted ∧
    nm_noop_rpc_cb cb_respond_fails 8 =
      { outcome := Outcome.aborted
        trace := [Event.HG_Respond 8 none none none (HG_ERROR 4), Event.abort] } :=
  ⟨congrArg Run.outcome ((C7_fail_fast env_no_context cb_ok 2 8).1 rfl).1,
   congrArg Run.outcome
     ((C7_fail_fast env_no_thread cb_ok 2 8).2.1 (by decide) (by decide)).1,
   (C7_fail_fast env_ok cb_respond_fails 2 8).2.2.1 (by decide)⟩

/-! ## C8: the order of the driver's operations -/

/-- C8: in every run of `nm_run_client` and of `nm_run_server` that returns,
the driver performs exactly these operations in this order: create the
context, register the procedure, spawn the poller on that context, sleep, set
`shutdown_flag`, join the poller, destroy the context; the context destroyed
is the one created and handed to the poller, and `HG_Context_destroy` comes
right after `pthread_join`.  In a run that aborts `HG_Context_destroy` is not
called at all. -/
theorem C8_driver_order (env : DriverEnv) (cls : Nat) :
    ((nm_run_client env cls).outcome = Outcome.returned () →
      env.HG_Context_create_id ≠ 0 ∧
      (nm_run_client env cls).trace =
        [Event.HG_Context_create_id cls NM_ID env.HG_Context_create_id,
          Event.MERCURY_REGISTER cls "nm_noop" none env.MERCURY_REGISTER,
          Event.pthread_create StartRoutine.progress_fn env.HG_Context_create_id env.tid 0,
          Event.sleep 1,
          Event.write_shutdown_flag 1,
          Event.pthread_join env.tid env.pthread_join,
          Event.HG_Context_destroy env.HG_Context_create_id env.HG_Context_destroy]) ∧
    ((nm_run_server env cls).outcome = Outcome.returned () →
      env.HG_Context_create_id ≠ 0 ∧
      (nm_run_server env cls).trace =
        [Event.HG_Context_create_id cls NM_ID env.HG_Context_create_id,
          Event.MERCURY_REGISTER cls "nm_noop" (some Callback.nm_noop_rpc_cb)
            env.MERCURY_REGISTER,
          Event.pthread_create StartRoutine.progress_fn env.HG_Context_create_id env.tid 0,
          Event.sleep 1,
          Event.write_shutdown_flag 1,
          Event.pthread_join env.tid env.pthread_join,
          Event.HG_Context_destroy env.HG_Context_create_id env.HG_Context_destroy]) ∧
    ((nm_run_client env cls).outcome = Outcome.aborted →
      (nm_run_client env cls).trace.filter is_context_destroy = []) ∧
    ((nm_run_server env cls).outcome = Outcome.aborted →
      (nm_run_server env cls).trace.filter is_context_destroy = []) := by
  refine ⟨?_, ?_, ?_, ?_⟩
  · intro h
    obtain ⟨h1, h2⟩ := (nm_run_client_returned_iff env cls).mp h
    exact ⟨h1, by rw [nm_run_client_ok env cls h1 h2]⟩
  · intro h
    obtain ⟨h1, h2⟩ := (nm_run_server_returned_iff env cls).mp h
    exact ⟨h1, by rw [nm_run_server_ok env cls h1 h2]⟩
  · intro h
    by_cases h1 : env.HG_Context_create_id = 0
    · rw [nm_run_client_no_context env cls h1]; rfl
    · by_cases h2 : env.pthread_create = 0
      · rw [nm_run_client_ok env cls h1 h2] at h; exact absurd h (by simp)
      · rw [nm_run_client_no_thread env cls h1 h2]; rfl
  · intro h
    by_cases h1 : env.HG_Context_create_id = 0
    · rw [nm_run_server_no_context env cls h1]; rfl
    · by_cases h2 : env.pthread_create = 0
      · rw [nm_run_server_ok env cls h1 h2] at h; exact absurd h (by simp)
      · rw [nm_run_server_no_thread env cls h1 h2]; rfl

/-- C8, at a concrete run: with `env_ok` the server returns and its seven
operations come in the stated order on context `5`. -/
theorem C8_driver_order_witness :
    (nm_run_server env_ok 2).outcome = Outcome.returned () ∧
    (nm_run_server env_ok 2).trace =
      [Event.HG_Context_create_id 2 1 5,
        Event.MERCURY_REGISTER 2 "nm_noop" (some Callback.nm_noop_rpc_cb) 9,
        Event.pthread_create StartRoutine.progress_fn 5 3 0,
        Event.sleep 1,
        Event.write_shutdown_flag 1,
        Event.pthread_join 3 0,
        Event.HG_Context_destroy 5 HG_SUCCESS] :=
  ⟨rfl, ((C8_driver_order env_ok 2).2.1 rfl).2⟩

/-! ## C10: registration and the callback -/

/-- C10 fails as stated: with `cb_respond_fails` the call of `HG_Respond` on
handle `9` reports `HG_ERROR 4`; the assertion of line 58 aborts the process,
the handle is not destroyed and the callback does not return success. -/
theorem C10_counterexample :
    nm_noop_rpc_cb cb_respond_fails 9 =
      { outcome := Outcome.aborted
        trace := [Event.HG_Respond 9 none none none (HG_ERROR 4), Event.abort] } ∧
    (nm_noop_rpc_cb cb_respond_fails 9).outcome ≠ Outcome.returned HG_SUCCESS ∧
    Event.HG_Destroy 9 HG_SUCCESS ∉ (nm_noop_rpc_cb cb_respond_fails 9).trace :=
  ⟨rfl, by decide, by decide⟩

/-- C10, amended: `nm_run_client` registers one procedure, `"nm_noop"`, with
no callback, and `nm_run_server` registers the same procedure with the
callback `nm_noop_rpc_cb` (in every run that gets past the context creation,
which aborts the driver when it fails).  For every call handle, an invocation
of `nm_noop_rpc_cb` sends exactly one reply, on that handle and with `NULL`
callback, argument and payload, whatever the transport reports.  When
`HG_Respond` and `HG_Destroy` both report success it then destroys that handle
once and returns `HG_SUCCESS`, and whenever it returns it has done exactly
these two calls in this order and returns `HG_SUCCESS`.  When `HG_Respond`
reports a failure the process aborts with the handle not destroyed; when
`HG_Respond` succeeds and `HG_Destroy` reports a failure the process aborts
after the one call of `HG_Destroy`. -/
theorem C10_registration_and_callback (env : DriverEnv) (cenv : CbEnv) (cls handle : Nat) :
    (nm_run_client env cls).trace.filter is_register =
      (if env.HG_Context_create_id = 0 then []
        else [Event.MERCURY_REGISTER cls "nm_noop" none env.MERCURY_REGISTER]) ∧
    (nm_run_server env cls).trace.filter is_register =
      (if env.HG_Context_create_id = 0 then []
        else [Event.MERCURY_REGISTER cls "nm_noop" (some Callback.nm_noop_rpc_cb)
          env.MERCURY_REGISTER]) ∧
    Callback.invoke Callback.nm_noop_rpc_cb cenv handle = nm_noop_rpc_cb cenv handle ∧
    (nm_noop_rpc_cb cenv handle).trace.filter is_respond =
      [Event.HG_Respond handle none none none cenv.HG_Respond] ∧
    (cenv.HG_Respond = HG_SUCCESS → cenv.HG_Destroy = HG_SUCCESS →
      nm_noop_rpc_cb cenv handle =
        { outcome := Outcome.returned HG_SUCCESS
          trace := [Event.HG_Respond handle none none none HG_SUCCESS,
            Event.HG_Destroy handle HG_SUCCESS] }) ∧
    (∀ v, (nm_noop_rpc_cb cenv handle).outcome = Outcome.returned v →
      v = HG_SUCCESS ∧
      (nm_noop_rpc_cb cenv handle).trace =
        [Event.HG_Respond handle none none none HG_SUCCESS,
          Event.HG_Destroy handle HG_SUCCESS]) ∧
    (cenv.HG_Respond ≠ HG_SUCCESS →
      nm_noop_rpc_cb cenv handle =
        { outcome := Outcome.aborted
          trace := [Event.HG_Respond handle none none none cenv.HG_Respond, Event.abort] }) ∧
    (cenv.HG_Respond = HG_SUCCESS → cenv.HG_Destroy ≠ HG_SUCCESS →
      nm_noop_rpc_cb cenv handle =
        { outcome := Outcome.aborted
          trace := [Event.HG_Respond handle none none none HG_SUCCESS,
            Event.HG_Destroy handle cenv.HG_Destroy, Event.abort] }) := by
  refine ⟨?_, ?_, rfl, ?_, nm_noop_rpc_cb_ok cenv handle, ?_,
    nm_noop_rpc_cb_respond_fails cenv handle, nm_noop_rpc_cb_destroy_fails cenv handle⟩
  · by_cases h1 : env.HG_Context_create_id = 0
    · rw [nm_run_client_no_context env cls h1, if_pos h1]; rfl
    · by_cases h2 : env.pthread_create = 0
      · rw [nm_run_client_ok env cls h1 h2, if_neg h1]; rfl
      · rw [nm_run_client_no_thread env cls h1 h2, if_neg h1]; rfl
  · by_cases h1 : env.HG_Context_create_id = 0
    · rw [nm_run_server_no_context env cls h1, if_pos h1]; rfl
    · by_cases h2 : env.pthread_create = 0
      · rw [nm_run_server_ok env cls h1 h2, if_neg h1]; rfl
      · rw [nm_run_server_no_thread env cls h1 h2, if_neg h1]; rfl
  · by_cases h1 : cenv.HG_Respond = HG_SUCCESS
    · by_cases h2 : cenv.HG_Destroy = HG_SUCCESS
      · rw [nm_noop_rpc_cb_ok cenv handle h1 h2, h1]; rfl
      · rw [nm_noop_rpc_cb_destroy_fails cenv handle h1 h2, h1]; rfl
    · rw [nm_noop_rpc_cb_respond_fails cenv handle h1]; rfl
  · intro v hv
    by_cases h1 : cenv.HG_Respond = HG_SUCCESS
    · by_cases h2 : cenv.HG_Destroy = HG_SUCCESS
      · rw [nm_noop_rpc_cb_ok cenv handle h1 h2] at hv ⊢
        exact ⟨(Outcome.returned.inj hv).symm, rfl⟩
      · rw [nm_noop_rpc_cb_destroy_fails cenv handle h1 h2] at hv
        exact absurd hv (by simp)
    · rw [nm_noop_rpc_cb_respond_fails cenv handle h1] at hv
      exact absurd hv (by simp)

/-- C10 amended, at a concrete invocation: with `cb_ok` the callback invoked on
handle `8` replies once, destroys the handle and returns `HG_SUCCESS`. -/
theorem C10_registration_and_callback_witness :
    nm_noop_rpc_cb cb_ok 8 =
      { outcome := Outcome.returned HG_SUCCESS
        trace := [Event.HG_Respond 8 none none none HG_SUCCESS,
          Event.HG_Destroy 8 HG_SUCCESS] } :=
  (C10_registration_and_callback env_ok cb_ok 2 8).2.2.2.2.1 rfl rfl

/-! ## C9: the shutdown flag -/

theorem writes_append (a b : List Event) : writes (a ++ b) = writes a + writes b := by
  unfold writes; rw [List.filter_append, List.length_append]

theorem step_writes (w : World) (s : PState) : writes (step w s).trace = writes s.trace := by
  cases hloc : s.loc with
  | loop_head => rw [step_loop_head w s hloc, writes_append]; rfl
  | trigger => rw [step_trigger w s hloc, writes_append]; rfl
  | drain_test => rw [step_drain_test w s hloc]
  | skip_test => rw [step_skip_test w s hloc, writes_append]; rfl
  | progress => rw [step_progress w s hloc, writes_append]; rfl
  | ret_test =>
    rw [step_ret_test w s hloc, writes_append]
    show writes s.trace + writes (if Accepted s.ret then [] else [Event.abort]) = _
    split <;> rfl
  | aborted => rw [show step w s = s from exec_aborted w 1 s hloc]
  | returned => rw [show step w s = s from exec_returned w 1 s hloc]

theorem exec_writes (w : World) (n : Nat) (s : PState) :
    writes (exec w n s).trace = writes s.trace := by
  induction n generalizing s with
  | zero => rfl
  | succ n ih => show writes (exec w n (step w s)).trace = _; rw [ih, step_writes]

theorem progress_fn_writes (w : World) (context : Nat) (ret0 : hg_return_t) (count0 n : Nat) :
    writes (progress_fn w context ret0 count0 n).trace = 0 :=
  exec_writes w n _

theorem not_write_of_writes_zero (h : List Event) (hz : writes h = 0) (v : Int) :
    Event.write_shutdown_flag v ∉ h := by
  intro hm
  have : Event.write_shutdown_flag v ∈ h.filter is_write := List.mem_filter.mpr ⟨hm, rfl⟩
  rw [List.eq_nil_of_length_eq_zero hz] at this
  exact List.not_mem_nil _ this

theorem nm_noop_rpc_cb_writes (env : CbEnv) (handle : Nat) :
    writes (nm_noop_rpc_cb env handle).trace = 0 := by
  by_cases h1 : env.HG_Respond = HG_SUCCESS
  · by_cases h2 : env.HG_Destroy = HG_SUCCESS
    · rw [nm_noop_rpc_cb_ok env handle h1 h2]; rfl
    · rw [nm_noop_rpc_cb_destroy_fails env handle h1 h2]; rfl
  · rw [nm_noop_rpc_cb_respond_fails env handle h1]; rfl

theorem nm_run_client_writes (env : DriverEnv) (cls : Nat) :
    (nm_run_client env cls).trace.filter is_write =
      if (nm_run_client env cls).outcome = Outcome.returned () then
        [Event.write_shutdown_flag 1] else [] := by
  by_cases h1 : env.HG_Context_create_id = 0
  · rw [nm_run_client_no_context env cls h1]; rfl
  · by_cases h2 : env.pthread_create = 0
    · rw [nm_run_client_ok env cls h1 h2]; rfl
    · rw [nm_run_client_no_thread env cls h1 h2]; rfl

theorem nm_run_server_writes (env : DriverEnv) (cls : Nat) :
    (nm_run_server env cls).trace.filter is_write =
      if (nm_run_server env cls).outcome = Outcome.returned () then
        [Event.write_shutdown_flag 1] else [] := by
  by_cases h1 : env.HG_Context_create_id = 0
  · rw [nm_run_server_no_context env cls h1]; rfl
  · by_cases h2 : env.pthread_create = 0
    · rw [nm_run_server_ok env cls h1 h2]; rfl
    · rw [nm_run_server_no_thread env cls h1 h2]; rfl

/-- A write found among the events of a trace whose writes are `[]` or
`[write 1]` is a write of `1`. -/
theorem write_one_of_filter (h : List Event) (c : Prop) [Decidable c]
    (hf : h.filter is_write = if c then [Event.write_shutdown_flag 1] else []) (v : Int)
    (hm : Event.write_shutdown_flag v ∈ h) : v = 1 := by
  have hm' : Event.write_shutdown_flag v ∈ h.filter is_write := List.mem_filter.mpr ⟨hm, rfl⟩
  rw [hf] at hm'
  split at hm'
  · rw [List.mem_singleton] at hm'
    exact Event.write_shutdown_flag.inj hm'
  · exact absurd hm' (List.not_mem_nil _)

/-- Every write to `shutdown_flag` performed by the program writes `1`. -/
theorem performed_write (v : Int) (h : Performed (Event.write_shutdown_flag v)) : v = 1 := by
  rcases h with ⟨w, c, r, k, n, h⟩ | ⟨env, hd, h⟩ | ⟨env, cls, h⟩ | ⟨env, cls, h⟩
  · exact absurd h (not_write_of_writes_zero _ (progress_fn_writes w c r k n) v)
  · exact absurd h (not_write_of_writes_zero _ (nm_noop_rpc_cb_writes env hd) v)
  · exact write_one_of_filter _ _ (nm_run_client_writes env cls) v h
  · exact write_one_of_filter _ _ (nm_run_server_writes env cls) v h

theorem flag_after_append (v : Int) (p q : List Event) :
    flag_after v (p ++ q) = flag_after (flag_after v p) q := by
  induction p generalizing v with
  | nil => rfl
  | cons e p ih =>
    cases e <;> simp only [List.cons_append, flag_after] <;> exact ih _

/-- A flag that is set stays set along events all of whose writes write
`1`. -/
theorem flag_after_set (q : List Event) :
    ∀ v : Int, v ≠ 0 → (∀ x, Event.write_shutdown_flag x ∈ q → x = 1) → flag_after v q ≠ 0 := by
  induction q with
  | nil => intro v hv _; exact hv
  | cons e q ih =>
    intro v hv hq
    have hq' : ∀ x, Event.write_shutdown_flag x ∈ q → x = 1 :=
      fun x hx => hq x (List.mem_cons_of_mem _ hx)
    cases e with
    | write_shutdown_flag x =>
      have hx : x = 1 := hq x (List.mem_cons_self _ _)
      show flag_after x q ≠ 0
      exact ih x (by rw [hx]; decide) hq'
    | _ => exact ih v hv hq'

/-- A flag that is `0` or `1` is `0` or `1` after events all of whose writes
write `1`. -/
theorem flag_after_bool (q : List Event) :
    ∀ v : Int, (v = 0 ∨ v = 1) → (∀ x, Event.write_shutdown_flag x ∈ q → x = 1) →
      (flag_after v q = 0 ∨ flag_after v q = 1) := by
  induction q with
  | nil => intro v hv _; exact hv
  | cons e q ih =>
    intro v hv hq
    have hq' : ∀ x, Event.write_shutdown_flag x ∈ q → x = 1 :=
      fun x hx => hq x (List.mem_cons_of_mem _ hx)
    cases e with
    | write_shutdown_flag x =>
      show flag_after x q = 0 ∨ flag_after x q = 1
      exact ih x (Or.inr (hq x (List.mem_cons_self _ _))) hq'
    | _ => exact ih v hv hq'

/-- C9 fails as stated: with `env_no_context` the client is aborted by the
assertion of line 76 and its run does not write `shutdown_flag` at all (not
exactly once); and when the server runs after a client run that returned,
the flag is already `1` after the server's first four operations and the
server's fifth operation is the write of `1`, a true-to-true write. -/
theorem C9_counterexample :
    (nm_run_client env_no_context 2).outcome = Outcome.aborted ∧
    writes (nm_run_client env_no_context 2).trace = 0 ∧
    flag_after shutdown_flag_init
      ((nm_run_client env_ok 2).trace ++ (nm_run_server env_ok 2).trace.take 4) = 1 ∧
    (nm_run_server env_ok 2).trace.take 5 =
      (nm_run_server env_ok 2).trace.take 4 ++ [Event.write_shutdown_flag 1] := by
  decide

/-- C9, amended: `shutdown_flag` starts as `0`; no run of `progress_fn` and
no invocation of `nm_noop_rpc_cb` writes it; a run of `nm_run_client` or of
`nm_run_server` that returns writes it exactly once, the value `1`, and a run
aborted during setup does not write it; every write performed by any of the
four operations writes `1`, so it leaves the flag set whatever the flag was
before (false-to-true, or true-to-true after an earlier driver run).  Hence
along every history of events performed by these operations, in any
interleaving, the flag is `0` or `1`, and once it is set after some initial
part of the history it is set after the whole history. -/
theorem C9_shutdown_flag :
    shutdown_flag_init = 0 ∧
    (∀ w context ret0 count0 n, writes (progress_fn w context ret0 count0 n).trace = 0) ∧
    (∀ env handle, writes (nm_noop_rpc_cb env handle).trace = 0) ∧
    (∀ env cls, (nm_run_client env cls).trace.filter is_write =
      if (nm_run_client env cls).outcome = Outcome.returned () then
        [Event.write_shutdown_flag 1] else []) ∧
    (∀ env cls, (nm_run_server env cls).trace.filter is_write =
      if (nm_run_server env cls).outcome = Outcome.returned () then
        [Event.write_shutdown_flag 1] else []) ∧
    (∀ v, Performed (Event.write_shutdown_flag v) → v = 1) ∧
    (∀ (p : List Event) (v : Int), Performed (Event.write_shutdown_flag v) →
      flag_after shutdown_flag_init (p ++ [Event.write_shutdown_flag v]) = 1) ∧
    (∀ h : List Event, (∀ e, e ∈ h → Performed e) →
      flag_after shutdown_flag_init h = 0 ∨ flag_after shutdown_flag_init h = 1) ∧
    (∀ p q : List Event, (∀ e, e ∈ p ++ q → Performed e) →
      flag_after shutdown_flag_init p ≠ 0 → flag_after shutdown_flag_init (p ++ q) ≠ 0) := by
  refine ⟨rfl, progress_fn_writes, nm_noop_rpc_cb_writes, nm_run_client_writes,
    nm_run_server_writes, performed_write, ?_, ?_, ?_⟩
  · intro p v hv
    rw [flag_after_append]
    exact performed_write v hv
  · intro h hp
    exact flag_after_bool h _ (Or.inl rfl) (fun x hx => performed_write x (hp _ hx))
  · intro p q hp hset
    rw [flag_after_append]
    exact flag_after_set q _ hset
      (fun x hx => performed_write x (hp _ (List.mem_append_right p hx)))

/-- C9 amended, at a concrete history: the events of a returning server run followed
by those of a poller run; the flag is set after the server run and is still
set after the whole history. -/
theorem C9_shutdown_flag_witness :
    flag_after shutdown_flag_init (nm_run_server env_ok 2).trace ≠ 0 ∧
    flag_after shutdown_flag_init
      ((nm_run_server env_ok 2).trace ++ (progress_fn world_quiet 7 HG_SUCCESS 0 7).trace) ≠ 0 :=
  ⟨by decide,
   C9_shutdown_flag.2.2.2.2.2.2.2.2 (nm_run_server env_ok 2).trace
     (progress_fn world_quiet 7 HG_SUCCESS 0 7).trace
     (fun e he => (List.mem_append.mp he).elim
       (fun h => Or.inr (Or.inr (Or.inr ⟨env_ok, 2, h⟩)))
       (fun h => Or.inl ⟨world_quiet, 7, HG_SUCCESS, 0, 7, h⟩))
     (by decide)⟩

end LibNm
